import Mathlib

/-!
# Book catalog server (`src/Server.c`) and its client (`src/Client.c`):
embedding and properties

Modelling conventions.

* A C string is the list of its characters before the terminating NUL
  (`CStr`).  `strcmp(a, b) == 0` is equality of such lists, `strcpy` copies
  the list and `strcat` appends.
* Every fixed buffer has its capacity: an array of `n` bytes holds a string
  of at most `n - 1` characters and its NUL.  A copy that runs past the end of
  the three character arrays of a catalog node inside the node is followed
  byte by byte (`storedBook`).  Any other copy past the end of its array or
  block (the local arrays of `decipherRequest`, the 1000-byte response block
  of the GET functions, the links of a node, the request arrays of the
  client) is the memory error `Fault.bufferOverflow`: what the C program does
  from there on is not defined by the source, and the model stops the call
  at that point.
* The doubly linked catalog is the list of the nodes reachable from the head
  pointer through `next`, in that order.  For the node at position `i` of a
  catalog with `n` nodes, `previous == NULL` is `i = 0` and `next == NULL` is
  `i + 1 = n`.
* `sendServerResponse` appends the written bytes to the list of responses of
  the call; a function returns the responses it sent, in order.
* A read through a freed node or a null pointer stops the execution; it is
  recorded in the `fault` field of the outcome together with the catalog and
  the responses as they stood at that point.
* The semaphore is its count.  A handler that finds the count 0 stays
  blocked in `sem_wait`; statements about a request that is processed are
  statements about a handler that found a positive count.
-/

namespace Server

/-- A C string: the characters before the terminating NUL. -/
abbrev CStr := List Char

/-- The payload of `struct book`; the `previous` and `next` links are the
position of the node in the catalog list. -/
structure Book where
  title : CStr
  author : CStr
  location : CStr
deriving DecidableEq

/-- The nodes reachable from `bookCatalog`, head first. -/
abbrev Catalog := List Book

/-- The memory errors an execution can run into. -/
inductive Fault where
  | useAfterFree
  | nullDereference
  | bufferOverflow
deriving DecidableEq

/-- What a call leaves behind: the catalog reachable from the head pointer,
the responses written to the client socket (oldest first) and the memory
error that stopped the call, if any. -/
structure Outcome where
  catalog : Catalog
  responses : List CStr
  fault : Option Fault
deriving DecidableEq

/-- The bytes written by `sendServerResponse(childfd, response, length)`:
`write` sends the first `length` bytes of the array that holds `response` and
its terminating NUL.  The branch for a failed `write` is not modelled. -/
def sendServerResponse (response : CStr) (length : Nat) : CStr :=
  (response ++ [Char.ofNat 0]).take length

/-- The C library function `strlen`. -/
def strlen (s : CStr) : Nat := s.length

/-- The text before the first line feed of a response: its status line. -/
def statusLine (response : CStr) : CStr :=
  response.takeWhile (fun c => c != '\n')

/-- The status tests: the status line is the one the server writes for the tag. -/
def isSubmitted (response : CStr) : Bool := statusLine response == "201: SUBMITTED".toList
def isRemoved (response : CStr) : Bool := statusLine response == "203:REMOVED".toList
def isDuplicate (response : CStr) : Bool := statusLine response == "401:DUPLICATE".toList
def isNotFound (response : CStr) : Bool := statusLine response == "402:NOT FOUND".toList

/-! ## submitBook -/

/-- The response text `submitBook` builds with `strcpy`/`strcat` before its
final `sendServerResponse`. -/
def submittedResponse (title author location : CStr) : CStr :=
  "201: SUBMITTED\n".toList ++ "TITLE:".toList ++ title ++ "\n".toList
    ++ "AUTHOR:".toList ++ author ++ "\n".toList
    ++ "LOCATION:".toList ++ location ++ "\n".toList

/-- The text of the DUPLICATE response of `submitBook`. -/
def duplicateResponse : CStr :=
  "401:DUPLICATE\nMESSAGE:The Book specified is a duplicate submission and could not be added to the Catalog.\n".toList

/-- The loop `while (it->next != NULL)` of `submitBook`, started with `it` at
position `i` of the catalog and the nodes from `it` on as the list argument.
Returns the position of `it` when the loop is left and the `duplicate` flag. -/
def submitScan (title author location : CStr) : List Book → Nat → Nat × Bool
  | [], i => (i, false)
  | [_], i => (i, false)
  | it :: nxt :: rest, i =>
    if title = it.title ∧ author = it.author ∧ location = it.location then (i, true)
    else submitScan title author location (nxt :: rest) (i + 1)

/-- The strings held by the three arrays `title[100]`, `author[100]` and
`location[100]` of a new node after `strcpy(newBook->title, title)`,
`strcpy(newBook->author, author)` and `strcpy(newBook->location, location)`,
in this order.  The arrays lie one after the other in `struct book`.  A title
of 100 or more characters fills its array and leaves no NUL in it, so the
string read from `title` runs on into the array `author`, which by then holds
the author; likewise a long author runs on into `location`. -/
def storedBook (title author location : CStr) : Book :=
  let authorString := if author.length < 100 then author else author.take 100 ++ location
  { title := if title.length < 100 then title else title.take 100 ++ authorString,
    author := authorString,
    location := location }

/-- Whether one of the three `strcpy` calls of `submitBook` writes past the
end of the three arrays of the node (300 bytes from `title` on), that is over
the links of the node or past the node. -/
def nodeOverrun (title author location : CStr) : Option Fault :=
  if 300 ≤ title.length ∨ 200 ≤ author.length ∨ 100 ≤ location.length then
    some Fault.bufferOverflow
  else none

/-- The call `submitBook(&bookCatalog, title, author, location, childfd)`.
The new node holds `storedBook title author location`; the scan and the
responses use the arguments.  The field `fault` records a write past the
arrays of the node; the catalog and the responses are those of the
statements of the function as far as the strings are concerned. -/
def submitBook (head : Catalog) (title author location : CStr) : Outcome :=
  let newBook : Book := storedBook title author location
  match head with
  | [] =>
    let serverResponse := submittedResponse title author location
    { catalog := [newBook],
      responses := [sendServerResponse serverResponse (strlen serverResponse)],
      fault := nodeOverrun title author location }
  | _ :: _ =>
    let scan := submitScan title author location head 0
    let it := scan.1
    let duplicate := scan.2
    let sent :=
      if duplicate = true then [sendServerResponse duplicateResponse (strlen duplicateResponse)]
      else []
    -- newBook->previous = it; it->next = newBook;
    let serverResponse := submittedResponse title author location
    { catalog := head.take (it + 1) ++ [newBook],
      responses := sent ++ [sendServerResponse serverResponse (strlen serverResponse)],
      fault := nodeOverrun title author location }

/-! ## The three GET operations

Each of them builds its response in a block of 1000 bytes
(`malloc(sizeof(char) * 1000)`).  The text in the block only grows, by
`strcat`, so a `strcat` writes past the end of the block exactly when the
final text and its NUL need more than 1000 bytes. -/

/-- The `while (head != NULL)` loop of `getBooksByAuthor` with its two
variables `found` and `serverResponse`. -/
def getBooksByAuthorLoop (author : CStr) : List Book → Bool → CStr → Bool × CStr
  | [], found, serverResponse => (found, serverResponse)
  | head :: next, found, serverResponse =>
    if head.author = author then
      let started := if found = false then "202:RETRIEVED\n".toList else serverResponse
      getBooksByAuthorLoop author next true
        (started ++ "TITLE:".toList ++ head.title ++ "\n".toList
          ++ "AUTHOR:".toList ++ author ++ "\n".toList
          ++ "LOCATION:".toList ++ head.location ++ "\n\n".toList)
    else getBooksByAuthorLoop author next found serverResponse

/-- The call `getBooksByAuthor(bookCatalog, author, childfd)`. -/
def getBooksByAuthor (head : Catalog) (author : CStr) : Outcome :=
  let r := getBooksByAuthorLoop author head false []
  if r.1 = false then
    let serverResponse :=
      "402:NOT FOUND\nMESSAGE:There are no Books in the Catalog with the given author.\n".toList
    { catalog := head,
      responses := [sendServerResponse serverResponse (strlen serverResponse)],
      fault := none }
  else if strlen r.2 < 1000 then
    { catalog := head, responses := [sendServerResponse r.2 (strlen r.2)], fault := none }
  else
    { catalog := head, responses := [], fault := some Fault.bufferOverflow }

/-- The `while (head != NULL)` loop of `getBooksWithTitle`. -/
def getBooksWithTitleLoop (title : CStr) : List Book → Bool → CStr → Bool × CStr
  | [], found, serverResponse => (found, serverResponse)
  | head :: next, found, serverResponse =>
    if head.title = title then
      let started := if found = false then "202:RETRIEVED\n".toList else serverResponse
      getBooksWithTitleLoop title next true
        (started ++ "TITLE:".toList ++ title ++ "\n".toList
          ++ "AUTHOR:".toList ++ head.author ++ "\n".toList
          ++ "LOCATION:".toList ++ head.location ++ "\n\n".toList)
    else getBooksWithTitleLoop title next found serverResponse

/-- The call `getBooksWithTitle(bookCatalog, title, childfd)`. -/
def getBooksWithTitle (head : Catalog) (title : CStr) : Outcome :=
  let r := getBooksWithTitleLoop title head false []
  if r.1 = false then
    let serverResponse :=
      "402:NOT FOUND\nMESSAGE:There are no Books in the Catalog with the given title.\n".toList
    { catalog := head,
      responses := [sendServerResponse serverResponse (strlen serverResponse)],
      fault := none }
  else if strlen r.2 < 1000 then
    { catalog := head, responses := [sendServerResponse r.2 (strlen r.2)], fault := none }
  else
    { catalog := head, responses := [], fault := some Fault.bufferOverflow }

/-- The `while (head != NULL)` loop of `getSpecificBook`. -/
def getSpecificBookLoop (title author : CStr) : List Book → Bool → CStr → Bool × CStr
  | [], found, serverResponse => (found, serverResponse)
  | head :: next, found, serverResponse =>
    if head.title = title ∧ head.author = author then
      let started := if found = false then "202:RETRIEVED\n".toList else serverResponse
      getSpecificBookLoop title author next true
        (started ++ "LOCATION:".toList ++ head.location ++ "\n\n".toList)
    else getSpecificBookLoop title author next found serverResponse

/-- The call `getSpecificBook(bookCatalog, title, author, childfd)`. -/
def getSpecificBook (head : Catalog) (title author : CStr) : Outcome :=
  let r := getSpecificBookLoop title author head false []
  if r.1 = false then
    let serverResponse :=
      "402:NOT FOUND\nMESSAGE: There were no Books with the given title and author in the Catalog.\n".toList
    { catalog := head,
      responses := [sendServerResponse serverResponse (strlen serverResponse)],
      fault := none }
  else if strlen r.2 < 1000 then
    { catalog := head, responses := [sendServerResponse r.2 (strlen r.2)], fault := none }
  else
    { catalog := head, responses := [], fault := some Fault.bufferOverflow }

/-! ## removeBook -/

/-- The response text `removeBook` builds before each REMOVED send. -/
def removedResponse (title author location : CStr) : CStr :=
  "203:REMOVED\nTITLE:".toList ++ title ++ "\nAUTHOR:".toList ++ author
    ++ "\nLOCATION:".toList ++ location ++ "\n".toList

/-- The NOT FOUND text of `removeBook` for an empty catalog. -/
def removeEmptyResponse : CStr :=
  "402:NOT FOUND\nMESSAGE:The Book Catalog is empty and thus does not contain the Book specified.\n".toList

/-- The NOT FOUND text of `removeBook` for a catalog without the book. -/
def removeMissingResponse : CStr :=
  "402:NOT FOUND\nMESSAGE:The Book specified could not be found in the Catalog.\n".toList

/-- The blocks of `removeBook` that unlink a node. -/
inductive RemovalCase where
  | soleBook
  | firstBook
  | lastBook
  | middleBook
deriving DecidableEq

/-- The outcome of `removeBook`, with the unlinking blocks it executed. -/
structure RemoveOutcome where
  catalog : Catalog
  responses : List CStr
  applied : List RemovalCase
  fault : Option Fault
deriving DecidableEq

/-- The search loop `while (it != NULL)` of `removeBook`, started with `it` at
position `i`: the position of the first node that matches on all three
fields, or `none` when `it` runs off the end (`it == NULL`). -/
def removeScan (title author location : CStr) : List Book → Nat → Option Nat
  | [], _ => none
  | it :: rest, i =>
    if it.title = title ∧ it.author = author ∧ it.location = location then some i
    else removeScan title author location rest (i + 1)

/-- The call `removeBook(&bookCatalog, title, author, location, childfd)`. -/
def removeBook (head : Catalog) (title author location : CStr) : RemoveOutcome :=
  match head with
  | [] =>
    -- CASE ONE: BOOK CATALOG IS EMPTY
    { catalog := [],
      responses := [sendServerResponse removeEmptyResponse (strlen removeEmptyResponse)],
      applied := [], fault := none }
  | [temp] =>
    -- CASE TWO: BOOK CATALOG HAS ONE BOOK
    if temp.author = author ∧ temp.title = title ∧ temp.location = location then
      let serverResponse := removedResponse title author location
      { catalog := [],
        responses := [sendServerResponse serverResponse (strlen serverResponse)],
        applied := [RemovalCase.soleBook], fault := none }
    else
      { catalog := [temp],
        responses := [sendServerResponse removeMissingResponse (strlen removeMissingResponse)],
        applied := [], fault := none }
  | _ :: _ :: _ =>
    -- CASE THREE: BOOK CATALOG HAS MORE THAN ONE BOOK
    match removeScan title author location head 0 with
    | none =>
      { catalog := head,
        responses := [sendServerResponse removeMissingResponse (strlen removeMissingResponse)],
        applied := [], fault := none }
    | some it =>
      let previousNull : Bool := decide (it = 0)
      let nextNull : Bool := decide (it + 1 = head.length)
      let serverResponse := removedResponse title author location
      let removed := sendServerResponse serverResponse (strlen serverResponse)
      if previousNull = true ∧ nextNull = false then
        -- first Book: *head = it->next; free(it); the send; then the second
        -- `if` reads it->previous of the freed node
        { catalog := head.drop (it + 1), responses := [removed],
          applied := [RemovalCase.firstBook], fault := some Fault.useAfterFree }
      else if previousNull = false ∧ nextNull = true then
        -- last Book: it->previous->next = NULL
        { catalog := head.take it, responses := [removed],
          applied := [RemovalCase.lastBook], fault := none }
      else if previousNull = true then
        -- middle block, it->previous->next with it->previous == NULL
        { catalog := head, responses := [],
          applied := [RemovalCase.middleBook], fault := some Fault.nullDereference }
      else if nextNull = true then
        -- middle block, it->next->previous with it->next == NULL
        { catalog := head.take it, responses := [],
          applied := [RemovalCase.middleBook], fault := some Fault.nullDereference }
      else
        -- middle block: it->previous->next = it->next; it->next->previous = it->previous
        { catalog := head.take it ++ head.drop (it + 1), responses := [removed],
          applied := [RemovalCase.middleBook], fault := none }

/-! ## parseRequest and decipherRequest -/

/-- The two counting loops of `parseRequest`: the number of characters before
the first `delimiter`, or the whole length when there is none. -/
def countUntil (delimiter : Char) : List Char → Nat
  | [] => 0
  | c :: rest => if c = delimiter then 0 else countUntil delimiter rest + 1

/-- The three buffers after a `parseRequest` call. -/
structure Parsed where
  requestMessage : CStr
  method : CStr
  value : CStr
deriving DecidableEq

/-- The call `parseRequest(requestMessage, method, value)`.  The lengths are C `int`s,
so `requestLength - tokenLength` is an integer difference. -/
def parseRequest (requestMessage : CStr) : Parsed :=
  let requestLength : Int := strlen requestMessage
  if strlen requestMessage = 0 then
    { requestMessage := requestMessage, method := [], value := [] }
  else
    let methodLength : Nat := countUntil ':' requestMessage
    let method := requestMessage.take methodLength
    let valueLength : Nat := countUntil ',' (requestMessage.drop (methodLength + 1))
    let value := (requestMessage.drop (methodLength + 1)).take valueLength
    let tokenLength : Nat := methodLength + valueLength + 2
    if requestLength - (tokenLength : Int) > 0 then
      { requestMessage := requestMessage.drop tokenLength, method := method, value := value }
    else
      { requestMessage := [], method := method, value := value }

/-- The BAD REQUEST literal for an unknown field of a GET request. -/
def invalidFieldResponse : CStr :=
  "404:BAD REQUEST\nMESSAGE:Request Message has an invalid field.".toList

/-- The BAD REQUEST literal for an unknown request type. -/
def invalidTypeResponse : CStr :=
  "404:BAD REQUEST\nMESSAGE:Request Message is an invalid type.\n".toList

/-- The outcome of `removeBook` without the record of the executed blocks. -/
def RemoveOutcome.toOutcome (r : RemoveOutcome) : Outcome :=
  { catalog := r.catalog, responses := r.responses, fault := r.fault }

/-- One call `parseRequest(request, method, value)` made by `decipherRequest`,
where `method` is an array of `methodSize` bytes and `value` an array of
`valueSize` bytes: `parseRequest` stores the key and its NUL in `method`, the
value and its NUL in `value`, and copies the rest of the buffer through its
local array `newRequestMessage[300]`.  The result is `none` when one of these
copies runs past the end of its array. -/
def parseRequestInto (methodSize valueSize : Nat) (request : CStr) : Option Parsed :=
  let parsed := parseRequest request
  if parsed.method.length < methodSize ∧ parsed.value.length < valueSize
      ∧ parsed.requestMessage.length < 300 then
    some parsed
  else none

/-- The steps of `decipherRequest` that matter for the lock: the two
semaphore calls, a `parseRequest` call, a call of one of the five catalog
functions (every read and every change of the catalog happens inside such a
call, and so do the sends of these functions), a `sendServerResponse` call
of `decipherRequest` itself, and the `exit(1)` of `sendServerResponse` after
a failed `write`. -/
inductive Step where
  | semWait
  | parse
  | catalogCall
  | send
  | semPost
  | exit
deriving DecidableEq

/-- What the statements of `decipherRequest` between `sem_wait` and `sem_post`
leave behind, together with the steps they took, in the order of the
source. -/
structure Traced extends Outcome where
  steps : List Step
deriving DecidableEq

/-- A copy in `decipherRequest` ran past the end of a local array after the
given steps: the catalog has not been touched and nothing has been sent. -/
def overrun (bookCatalog : Catalog) (steps : List Step) : Traced :=
  { catalog := bookCatalog, responses := [], fault := some Fault.bufferOverflow,
    steps := steps }

/-- The body of `decipherRequest` between `sem_wait` and `sem_post`, with its
local arrays `requestHeaderType[15]`, `requestHeaderValue[15]`,
`requestMethodType[15]`, `requestMethodValue[100]`, `requestTitle[100]`,
`requestAuthor[50]` and `requestLocation[50]`. -/
def decipherBody (bookCatalog : Catalog) (request : CStr) : Traced :=
  -- parseRequest(request, requestHeaderType, requestHeaderValue)
  match parseRequestInto 15 15 request with
  | none => overrun bookCatalog [Step.parse]
  | some header =>
    if header.value = "SUBMIT".toList then
      -- parseRequest(request, requestMethodType, requestTitle)
      match parseRequestInto 15 100 header.requestMessage with
      | none => overrun bookCatalog [Step.parse, Step.parse]
      | some first =>
        -- parseRequest(request, requestMethodType, requestAuthor)
        match parseRequestInto 15 50 first.requestMessage with
        | none => overrun bookCatalog [Step.parse, Step.parse, Step.parse]
        | some second =>
          -- parseRequest(request, requestMethodType, requestLocation)
          match parseRequestInto 15 50 second.requestMessage with
          | none => overrun bookCatalog [Step.parse, Step.parse, Step.parse, Step.parse]
          | some third =>
            { toOutcome := submitBook bookCatalog first.value second.value third.value,
              steps := [Step.parse, Step.parse, Step.parse, Step.parse, Step.catalogCall] }
    else if header.value = "GET".toList then
      -- parseRequest(request, requestMethodType, requestMethodValue)
      match parseRequestInto 15 100 header.requestMessage with
      | none => overrun bookCatalog [Step.parse, Step.parse]
      | some first =>
        if first.method = "AUTHOR".toList then
          -- strcpy(requestAuthor, requestMethodValue)
          if first.value.length < 50 then
            { toOutcome := getBooksByAuthor bookCatalog first.value,
              steps := [Step.parse, Step.parse, Step.catalogCall] }
          else overrun bookCatalog [Step.parse, Step.parse]
        else if first.method = "TITLE".toList then
          -- strcpy(requestTitle, requestMethodValue), then
          -- parseRequest(request, requestMethodType, requestMethodValue)
          match parseRequestInto 15 100 first.requestMessage with
          | none => overrun bookCatalog [Step.parse, Step.parse, Step.parse]
          | some second =>
            if second.method = "AUTHOR".toList then
              -- strcpy(requestAuthor, requestMethodValue)
              if second.value.length < 50 then
                { toOutcome := getSpecificBook bookCatalog first.value second.value,
                  steps := [Step.parse, Step.parse, Step.parse, Step.catalogCall] }
              else overrun bookCatalog [Step.parse, Step.parse, Step.parse]
            else
              { toOutcome := getBooksWithTitle bookCatalog first.value,
                steps := [Step.parse, Step.parse, Step.parse, Step.catalogCall] }
        else
          { catalog := bookCatalog, responses := [sendServerResponse invalidFieldResponse 62],
            fault := none, steps := [Step.parse, Step.parse, Step.send] }
    else if header.value = "REMOVE".toList then
      match parseRequestInto 15 100 header.requestMessage with
      | none => overrun bookCatalog [Step.parse, Step.parse]
      | some first =>
        match parseRequestInto 15 50 first.requestMessage with
        | none => overrun bookCatalog [Step.parse, Step.parse, Step.parse]
        | some second =>
          match parseRequestInto 15 50 second.requestMessage with
          | none => overrun bookCatalog [Step.parse, Step.parse, Step.parse, Step.parse]
          | some third =>
            { toOutcome :=
                (removeBook bookCatalog first.value second.value third.value).toOutcome,
              steps := [Step.parse, Step.parse, Step.parse, Step.parse, Step.catalogCall] }
    else
      { catalog := bookCatalog, responses := [sendServerResponse invalidTypeResponse 61],
        fault := none, steps := [Step.parse, Step.send] }

/-- The call `decipherRequest(request, childfd)` run by one handler on the semaphore
count `mutex` and the global `bookCatalog`.  `none`: the handler stays blocked
in `sem_wait` (count 0).  Otherwise the count after the call and the outcome;
`sem_post` is only reached when the body ran to its end. -/
def decipherRequest (mutex : Nat) (bookCatalog : Catalog) (request : CStr) :
    Option (Nat × Outcome) :=
  match mutex with
  | 0 => none
  | held + 1 =>
    let outcome := (decipherBody bookCatalog request).toOutcome
    if outcome.fault = none then some (held + 1, outcome) else some (held, outcome)

/-- The steps of one call of `decipherRequest` whose `sem_wait` returns:
`sem_wait`, the steps of the body, and what ends the call.  `sent` tells
whether the `write` calls of the call succeed.  When they fail, the first
`sendServerResponse` of the call ends the process with `exit(1)`; when the
body runs into a memory error nothing follows; otherwise `sem_post` is
reached. -/
def decipherRequestSteps (sent : Bool) (bookCatalog : Catalog) (request : CStr) : List Step :=
  let body := decipherBody bookCatalog request
  Step.semWait :: body.steps ++
    (if sent = false ∧ body.responses ≠ [] then [Step.exit]
     else if body.fault = none then [Step.semPost]
     else [])

/-! ## Reading a response -/

/-- One TITLE/AUTHOR/LOCATION block of a RETRIEVED response. -/
def recordBlock (b : Book) : CStr :=
  "TITLE:".toList ++ b.title ++ "\n".toList ++ "AUTHOR:".toList ++ b.author ++ "\n".toList
    ++ "LOCATION:".toList ++ b.location ++ "\n\n".toList

/-- One LOCATION-only block of a RETRIEVED response. -/
def locationBlock (b : Book) : CStr :=
  "LOCATION:".toList ++ b.location ++ "\n\n".toList

/-- The blocks of the given records, one after the other. -/
def blocks (block : Book → CStr) : List Book → CStr
  | [] => []
  | b :: rest => block b ++ blocks block rest

/-- The NOT FOUND text of `getBooksByAuthor`. -/
def authorNotFoundResponse : CStr :=
  "402:NOT FOUND\nMESSAGE:There are no Books in the Catalog with the given author.\n".toList

/-- The NOT FOUND text of `getBooksWithTitle`. -/
def titleNotFoundResponse : CStr :=
  "402:NOT FOUND\nMESSAGE:There are no Books in the Catalog with the given title.\n".toList

/-- The NOT FOUND text of `getSpecificBook`. -/
def specificNotFoundResponse : CStr :=
  "402:NOT FOUND\nMESSAGE: There were no Books with the given title and author in the Catalog.\n".toList

/-! ## Sample records -/

def dune : Book :=
  { title := "Dune".toList, author := "Herbert".toList, location := "Shelf3".toList }

def emma : Book :=
  { title := "Emma".toList, author := "Austen".toList, location := "Shelf1".toList }

def ulysses : Book :=
  { title := "Ulysses".toList, author := "Joyce".toList, location := "Shelf2".toList }

/-! ## launchClientLoop -/

/-- The BAD REQUEST literal `launchClientLoop` sends for a chunk that does not
end with a line feed. -/
def missingNewlineResponse : CStr :=
  "404:BAD REQUEST,MESSAGE:Request Message is missing ending newline character.\n".toList

/-- The status test for the three BAD REQUEST texts: they start with the code
and the tag. -/
def isBadRequest (response : CStr) : Bool := response.take 15 == "404:BAD REQUEST".toList

/-- The C string held by a byte array: the bytes before the first NUL. -/
def cString (bytes : List Char) : CStr := bytes.takeWhile (fun c => c != Char.ofNat 0)

/-- What one `read(childfd, requestMessage, 250)` gives: a negative result, 0
(the client disconnected) or bytes.  `read` stores at most 250 bytes:
`received bytes` stands for the result in which the first 250 of `bytes` were
stored. -/
inductive ReadResult where
  | failed
  | disconnected
  | received (bytes : List Char)
deriving DecidableEq

/-- How one turn of the `while (childfd >= 0)` loop ends: the loop goes on to
the next `read`, the loop is left (`break`), the process exits (`exit(1)`),
the handler stays blocked in `sem_wait`, or the turn runs into a memory
error. -/
inductive LoopStatus where
  | running
  | left
  | exited
  | blocked
  | crashed (fault : Fault)
deriving DecidableEq

/-- The semaphore count and the catalog after a turn of the loop, the
responses written during the turn, and how the turn ended. -/
structure Turn where
  mutex : Nat
  bookCatalog : Catalog
  responses : List CStr
  status : LoopStatus
deriving DecidableEq

/-- One turn of the loop of `launchClientLoop` for the given result of
`read`.  `requestMessage` is zero-filled before the `read`, so after the last
received byte was overwritten with NUL the request string is the bytes before
it, up to a NUL among them. -/
def launchClientLoopTurn (mutex : Nat) (bookCatalog : Catalog) : ReadResult → Turn
  | ReadResult.failed =>
    { mutex := mutex, bookCatalog := bookCatalog, responses := [], status := LoopStatus.exited }
  | ReadResult.disconnected =>
    { mutex := mutex, bookCatalog := bookCatalog, responses := [], status := LoopStatus.left }
  | ReadResult.received bytes =>
    let requestMessage := bytes.take 250
    if requestMessage.length = 0 then
      { mutex := mutex, bookCatalog := bookCatalog, responses := [], status := LoopStatus.left }
    else if requestMessage.getLast? = some '\n' then
      match decipherRequest mutex bookCatalog (cString requestMessage.dropLast) with
      | none =>
        { mutex := mutex, bookCatalog := bookCatalog, responses := [],
          status := LoopStatus.blocked }
      | some (count, outcome) =>
        { mutex := count, bookCatalog := outcome.catalog, responses := outcome.responses,
          status :=
            match outcome.fault with
            | none => LoopStatus.running
            | some fault => LoopStatus.crashed fault }
    else
      { mutex := mutex, bookCatalog := bookCatalog,
        responses := [sendServerResponse missingNewlineResponse 78],
        status := LoopStatus.running }

/-- The loop of `launchClientLoop` over the successive results of `read`: the
turns taken, oldest first.  The loop stops after the first turn that does not
leave it running. -/
def launchClientLoop (mutex : Nat) (bookCatalog : Catalog) : List ReadResult → List Turn
  | [] => []
  | r :: later =>
    let turn := launchClientLoopTurn mutex bookCatalog r
    if turn.status = LoopStatus.running then
      turn :: launchClientLoop turn.mutex turn.bookCatalog later
    else [turn]

/-! ## Request lines -/

/-- The pairs joined as `KEY:VALUE` with `,` between them. -/
def joinPairs : List (CStr × CStr) → CStr
  | [] => []
  | [p] => p.1 ++ ':' :: p.2
  | p :: q :: rest => p.1 ++ ':' :: p.2 ++ ',' :: joinPairs (q :: rest)

/-- The pairs returned by `n` successive `parseRequest` calls on a buffer,
and the buffer after the last call. -/
def parseRepeatedly : Nat → CStr → List (CStr × CStr) × CStr
  | 0, buffer => ([], buffer)
  | n + 1, buffer =>
    let parsed := parseRequest buffer
    let later := parseRepeatedly n parsed.requestMessage
    ((parsed.method, parsed.value) :: later.1, later.2)

/-- The pair read by the `parseRequest` call that follows the call which gave
`parsed`: it works on the buffer that call left. -/
def nextPair (parsed : Parsed) : Parsed := parseRequest parsed.requestMessage

/-- The three lines that follow the status line of a SUBMITTED or REMOVED
response when it echoes a triple. -/
def echoLines (title author location : CStr) : CStr :=
  "TITLE:".toList ++ title ++ "\n".toList ++ "AUTHOR:".toList ++ author ++ "\n".toList
    ++ "LOCATION:".toList ++ location ++ "\n".toList

/-! ## Transport errors and shutdown -/

/-- What `sendServerResponse` does with the result `sentBytes` of its `write`:
a negative result is reported and followed by `exit(1)`; otherwise the
function returns to its caller. -/
def sendServerResponseStatus (sentBytes : Int) : LoopStatus :=
  if sentBytes < 0 then LoopStatus.exited else LoopStatus.running

/-- The loop `while (temp->next != NULL) { temp = temp->next;
free(temp->previous); }` of `removeAllBooks`, started at the node `temp` with
the nodes after it: the nodes freed by the loop, in the order of the calls of
`free`, and the node `temp` stands on when the loop is left. -/
def removeAllBooksLoop : Book → List Book → List Book × Book
  | temp, [] => ([], temp)
  | temp, next :: rest =>
    let later := removeAllBooksLoop next rest
    (temp :: later.1, later.2)

/-- The catalog after `removeAllBooks` and the nodes it passed to `free`, in
the order of the calls. -/
structure Cleared where
  catalog : Catalog
  freed : List Book
deriving DecidableEq

/-- The call `removeAllBooks(&bookCatalog)`. -/
def removeAllBooks (head : Catalog) : Cleared :=
  match head with
  | [] => { catalog := [], freed := [] }
  | temp :: rest =>
    let walked := removeAllBooksLoop temp rest
    -- free(temp); temp = NULL; *head = temp;
    { catalog := [], freed := walked.1 ++ [walked.2] }

/-- The state in which `handleServerClose` leaves the process: whether the
listening socket was closed, the catalog, the nodes freed and the status
passed to `exit`. -/
structure Shutdown where
  listenerClosed : Bool
  bookCatalog : Catalog
  freed : List Book
  exitStatus : Nat
deriving DecidableEq

/-- The signal handler `handleServerClose`: `close(parentfd)`, then
`removeAllBooks(&bookCatalog)`, then `exit(0)`. -/
def handleServerClose (bookCatalog : Catalog) : Shutdown :=
  let cleared := removeAllBooks bookCatalog
  { listenerClosed := true, bookCatalog := cleared.catalog, freed := cleared.freed,
    exitStatus := 0 }

/-! ## A handler's session and what was submitted and removed in it -/

/-- The catalog change a result of `read` asks the handler for: the chunk is
a line whose first value is SUBMIT or REMOVE, with the three values that
`decipherRequest` reads after it; any other result of `read` asks for
none. -/
inductive Operation where
  | submit (book : Book)
  | remove (book : Book)
  | other
deriving DecidableEq

/-- The catalog change asked for by a result of `read`, read off the chunk
the way `launchClientLoop` and `decipherRequest` do. -/
def operationOf : ReadResult → Operation
  | ReadResult.failed => Operation.other
  | ReadResult.disconnected => Operation.other
  | ReadResult.received bytes =>
    let requestMessage := bytes.take 250
    if requestMessage.length = 0 then Operation.other
    else if requestMessage.getLast? = some '\n' then
      let header := parseRequest (cString requestMessage.dropLast)
      let first := nextPair header
      let second := nextPair first
      let third := nextPair second
      if header.value = "SUBMIT".toList then
        Operation.submit { title := first.value, author := second.value, location := third.value }
      else if header.value = "REMOVE".toList then
        Operation.remove { title := first.value, author := second.value, location := third.value }
      else Operation.other
    else Operation.other

/-- The server between two turns of a handler loop: the semaphore count, the
catalog, how the last turn ended, the triples of the SUBMIT lines received so
far and the triples of the REMOVE lines that were answered REMOVED so far
(latest first). -/
structure Session where
  mutex : Nat
  bookCatalog : Catalog
  status : LoopStatus
  submitted : List Book
  removed : List Book
deriving DecidableEq

/-- The session after one more turn of `launchClientLoop`. -/
def Session.turn (s : Session) (r : ReadResult) : Session :=
  let turn := launchClientLoopTurn s.mutex s.bookCatalog r
  { mutex := turn.mutex, bookCatalog := turn.bookCatalog, status := turn.status,
    submitted :=
      match operationOf r with
      | Operation.submit book => book :: s.submitted
      | _ => s.submitted,
    removed :=
      match operationOf r with
      | Operation.remove book =>
        if turn.responses.any isRemoved = true then book :: s.removed else s.removed
      | _ => s.removed }

/-- The bytes the client's `submitBook(bookTitle, bookAuthor, bookLocation,
sockfd)` writes to the socket: the request built with `strcpy`/`strcat` in the
array `submitRequest[250]`; `none` when the request and its NUL need more
than the 250 bytes of the array. -/
def Client.submitBook (bookTitle bookAuthor bookLocation : CStr) : Option CStr :=
  let submitRequest : CStr :=
    "METHOD:SUBMIT,".toList ++ "TITLE:".toList ++ bookTitle ++ ",".toList
      ++ "AUTHOR:".toList ++ bookAuthor ++ ",".toList
      ++ "LOCATION:".toList ++ bookLocation ++ "\n".toList
  if strlen submitRequest < 250 then some submitRequest else none

/-- The bytes the client's `removeBook` writes to the socket, built in
`removeRequest[250]`. -/
def Client.removeBook (bookTitle bookAuthor bookLocation : CStr) : Option CStr :=
  let removeRequest : CStr :=
    "METHOD:REMOVE,".toList ++ "TITLE:".toList ++ bookTitle ++ ",".toList
      ++ "AUTHOR:".toList ++ bookAuthor ++ ",".toList
      ++ "LOCATION:".toList ++ bookLocation ++ "\n".toList
  if strlen removeRequest < 250 then some removeRequest else none

/-- The bytes the client's `getBooksByAuthor` writes to the socket, built in
`getRequest[250]`. -/
def Client.getBooksByAuthor (bookAuthor : CStr) : Option CStr :=
  let getRequest : CStr :=
    "METHOD:GET,".toList ++ "AUTHOR:".toList ++ bookAuthor ++ "\n".toList
  if strlen getRequest < 250 then some getRequest else none

/-- The bytes the client's `getBooksWithTitle` writes to the socket, built in
`getRequest[250]`. -/
def Client.getBooksWithTitle (bookTitle : CStr) : Option CStr :=
  let getRequest : CStr :=
    "METHOD:GET,".toList ++ "TITLE:".toList ++ bookTitle ++ "\n".toList
  if strlen getRequest < 250 then some getRequest else none

/-- The bytes the client's `getSpecificBook` writes to the socket, built in
`getRequest[250]`. -/
def Client.getSpecificBook (bookTitle bookAuthor : CStr) : Option CStr :=
  let getRequest : CStr :=
    "METHOD:GET,".toList ++ "TITLE:".toList ++ bookTitle ++ ",".toList
      ++ "AUTHOR:".toList ++ bookAuthor ++ "\n".toList
  if strlen getRequest < 250 then some getRequest else none

/-- The characters `fgets` stores when it may still store `room` characters:
it stops after a line feed, when the room is used up or when the input
ends.  Returns the characters stored and the input left. -/
def fgetsRead : Nat → List Char → CStr × List Char
  | 0, input => ([], input)
  | _ + 1, [] => ([], [])
  | room + 1, c :: rest =>
    if c = '\n' then ([c], rest)
    else
      let later := fgetsRead room rest
      (c :: later.1, later.2)

/-- The call `fgets(buffer, size, stdin)` on the characters waiting on the
standard input: the string stored in `buffer` and the input left; `none` when
no character is waiting. -/
def fgets (size : Nat) (stdin : List Char) : Option (CStr × List Char) :=
  if stdin = [] then none else some (fgetsRead (size - 1) stdin)

/-- One field as choices 1 to 4 of `collectBookInformation` read it:
`fgets(inputBuffer, 1000, stdin)`, `strncpy(field, inputBuffer, 100)` and
`length = strlen(inputBuffer) - 1`.  Returns the first 100 characters, the
length and the input left. -/
def readFieldBuffered (stdin : List Char) : Option (CStr × Int × List Char) :=
  match fgets 1000 stdin with
  | none => none
  | some (inputBuffer, rest) =>
    some (inputBuffer.take 100, (strlen inputBuffer : Int) - 1, rest)

/-- One field as choice 5 of `collectBookInformation` reads it:
`fgets(field, 100, stdin)` and `length = strlen(field) - 1`. -/
def readFieldDirect (stdin : List Char) : Option (CStr × Int × List Char) :=
  match fgets 100 stdin with
  | none => none
  | some (field, rest) => some (field, (strlen field : Int) - 1, rest)

/-- The string in a field array after `field[length] = 0`. -/
def terminateAt (field : CStr) (length : Int) : CStr := field.take length.toNat

/-- What a call of `collectBookInformation` leaves: the results of the
request functions it called (the request written to the socket, or `none`
when the function ran past the end of its request array) and the input not
yet read. -/
structure Collected where
  requests : List (Option CStr)
  stdin : List Char
deriving DecidableEq

/-- The call `collectBookInformation(menuChoice, sockfd)` on the characters
waiting on the standard input; `none` when the input ends before all the
fields of the choice were read. -/
def collectBookInformation (menuChoice : Int) (stdin : List Char) : Option Collected :=
  if menuChoice = 1 then
    match readFieldBuffered stdin with
    | none => none
    | some (bookTitle, titleLength, afterTitle) =>
    match readFieldBuffered afterTitle with
    | none => none
    | some (bookAuthor, authorLength, afterAuthor) =>
    match readFieldBuffered afterAuthor with
    | none => none
    | some (bookLocation, locationLength, rest) =>
      if titleLength = 0 ∨ authorLength = 0 ∨ locationLength = 0 then
        some { requests := [], stdin := rest }
      else if titleLength > 100 ∨ authorLength > 100 ∨ locationLength > 100 then
        some { requests := [], stdin := rest }
      else
        some { requests := [Client.submitBook (terminateAt bookTitle titleLength)
                 (terminateAt bookAuthor authorLength)
                 (terminateAt bookLocation locationLength)],
               stdin := rest }
  else if menuChoice = 2 then
    match readFieldBuffered stdin with
    | none => none
    | some (bookTitle, titleLength, afterTitle) =>
    match readFieldBuffered afterTitle with
    | none => none
    | some (bookAuthor, authorLength, rest) =>
      if titleLength = 0 ∨ authorLength = 0 then some { requests := [], stdin := rest }
      else if titleLength > 100 ∨ authorLength > 100 then
        some { requests := [], stdin := rest }
      else
        some { requests := [Client.getSpecificBook (terminateAt bookTitle titleLength)
                 (terminateAt bookAuthor authorLength)],
               stdin := rest }
  else if menuChoice = 3 then
    match readFieldBuffered stdin with
    | none => none
    | some (bookAuthor, authorLength, rest) =>
      if authorLength = 0 then some { requests := [], stdin := rest }
      else if authorLength > 100 then some { requests := [], stdin := rest }
      else
        some { requests := [Client.getBooksByAuthor (terminateAt bookAuthor authorLength)],
               stdin := rest }
  else if menuChoice = 4 then
    match readFieldBuffered stdin with
    | none => none
    | some (bookTitle, titleLength, rest) =>
      if titleLength = 0 then some { requests := [], stdin := rest }
      else if titleLength > 100 then some { requests := [], stdin := rest }
      else
        some { requests := [Client.getBooksWithTitle (terminateAt bookTitle titleLength)],
               stdin := rest }
  else if menuChoice = 5 then
    match readFieldDirect stdin with
    | none => none
    | some (bookTitle, titleLength, afterTitle) =>
    match readFieldDirect afterTitle with
    | none => none
    | some (bookAuthor, authorLength, afterAuthor) =>
    match readFieldDirect afterAuthor with
    | none => none
    | some (bookLocation, locationLength, rest) =>
      if titleLength = 0 ∨ authorLength = 0 ∨ locationLength = 0 then
        some { requests := [], stdin := rest }
      else if titleLength > 100 ∨ authorLength > 100 ∨ locationLength > 100 then
        some { requests := [], stdin := rest }
      else
        some { requests := [Client.removeBook (terminateAt bookTitle titleLength)
                 (terminateAt bookAuthor authorLength)
                 (terminateAt bookLocation locationLength)],
               stdin := rest }
  else some { requests := [], stdin := stdin }

/-- The characters a user types for the given lines: each line followed by a
line feed. -/
def typed : List CStr → List Char
  | [] => []
  | line :: later => line ++ '\n' :: typed later

/-- The catalog after the given triples were submitted one after the other. -/
def submitAll (head : Catalog) : List Book → Catalog
  | [] => head
  | b :: later => submitAll (submitBook head b.title b.author b.location).catalog later

/-! ## The semaphore after the setup of main -/

/-- The count of the semaphore when `main` starts.  The object `sem_t mutex`
has static storage, so all its bytes are zero; the C library of the platform
reads a zero-filled `sem_t` as the count 0. -/
def loadedMutex : Nat := 0

/-- The count of the semaphore after the setup part of `main` (from the
signal bindings to `listen`), given the count before it: no statement of
`main` touches the semaphore, and no `sem_init` call exists in the file. -/
def mainSetup (mutex : Nat) : Nat := mutex

/-! ## The tokenizer of the server variant kept in `src/Client.c` -/

/-- A counting loop of the variant's `parseRequest`, by index: `steps` is the
number of indices from `i` up to `requestLength`; the result is how often
the counter was incremented before the loop met `delimiter` or ran out of
indices. -/
def Embedded.countLoop (requestMessage : CStr) (delimiter : Char) : Nat → Nat → Nat
  | 0, _ => 0
  | steps + 1, i =>
    if requestMessage.getD i (Char.ofNat 0) = delimiter then 0
    else Embedded.countLoop requestMessage delimiter steps (i + 1) + 1

/-- The function `parseRequest` of the server variant in `src/Client.c`
(lines 1189 to 1271), with its two `for` loops written by index. -/
def Embedded.parseRequest (requestMessage : CStr) : Parsed :=
  let requestLength : Nat := strlen requestMessage
  if strlen requestMessage = 0 then
    { requestMessage := requestMessage, method := [], value := [] }
  else
    let methodLength : Nat := Embedded.countLoop requestMessage ':' requestLength 0
    let method := requestMessage.take methodLength
    let valueLength : Nat :=
      Embedded.countLoop requestMessage ',' (requestLength - (methodLength + 1))
        (methodLength + 1)
    let value := (requestMessage.drop (methodLength + 1)).take valueLength
    let tokenLength : Nat := methodLength + valueLength + 2
    if (requestLength : Int) - (tokenLength : Int) > 0 then
      { requestMessage := requestMessage.drop tokenLength, method := method, value := value }
    else
      { requestMessage := [], method := method, value := value }

/-! ## Sending and status lines -/

theorem sendServerResponse_strlen (s : CStr) : sendServerResponse s (strlen s) = s := by
  simp [sendServerResponse, strlen]

theorem statusLine_submitted (t a l : CStr) :
    statusLine (submittedResponse t a l) = "201: SUBMITTED".toList := by
  simp [statusLine, submittedResponse, List.takeWhile]

theorem statusLine_removed (t a l : CStr) :
    statusLine (removedResponse t a l) = "203:REMOVED".toList := by
  simp [statusLine, removedResponse, List.takeWhile]

theorem statusLine_retrieved (rest : CStr) :
    statusLine ("202:RETRIEVED\n".toList ++ rest) = "202:RETRIEVED".toList := by
  simp [statusLine, List.takeWhile]

theorem isSubmitted_submitted (t a l : CStr) : isSubmitted (submittedResponse t a l) = true := by
  simp [isSubmitted, statusLine_submitted]

theorem isDuplicate_submitted (t a l : CStr) : isDuplicate (submittedResponse t a l) = false := by
  simp [isDuplicate, statusLine_submitted]

theorem isRemoved_removed (t a l : CStr) : isRemoved (removedResponse t a l) = true := by
  simp [isRemoved, statusLine_removed]

theorem isNotFound_removed (t a l : CStr) : isNotFound (removedResponse t a l) = false := by
  simp [isNotFound, statusLine_removed]

theorem isDuplicate_duplicate : isDuplicate duplicateResponse = true := by decide

theorem isSubmitted_duplicate : isSubmitted duplicateResponse = false := by decide

theorem isNotFound_removeEmpty : isNotFound removeEmptyResponse = true := by decide

theorem isNotFound_removeMissing : isNotFound removeMissingResponse = true := by decide

theorem Book.eq_mk_iff (b : Book) (t a l : CStr) :
    b = { title := t, author := a, location := l } ↔
      b.title = t ∧ b.author = a ∧ b.location = l := by
  cases b; simp

theorem submitScan_no_match (t a l : CStr) :
    ∀ (c : List Book) (i : Nat),
      (∀ b ∈ c.dropLast, b ≠ { title := t, author := a, location := l }) →
      submitScan t a l c i = (i + (c.length - 1), false)
  | [], i, _ => by simp [submitScan]
  | [_], i, _ => by simp [submitScan]
  | it :: nxt :: rest, i, h => by
    have h1 : ¬ (t = it.title ∧ a = it.author ∧ l = it.location) := by
      intro hm
      apply h it (by simp [List.dropLast])
      rw [Book.eq_mk_iff]
      exact ⟨hm.1.symm, hm.2.1.symm, hm.2.2.symm⟩
    have h2 := submitScan_no_match t a l (nxt :: rest) (i + 1)
      (fun b hb => h b (by simp [List.dropLast] at hb ⊢; exact Or.inr hb))
    rw [submitScan, if_neg h1, h2]
    simp
    omega

theorem submitScan_match (t a l : CStr) :
    ∀ (pre post : List Book) (i : Nat), post ≠ [] →
      (∀ b ∈ pre, b ≠ { title := t, author := a, location := l }) →
      submitScan t a l (pre ++ { title := t, author := a, location := l } :: post) i
        = (i + pre.length, true)
  | [], p :: post, i, _, _ => by simp [submitScan]
  | [], [], i, h, _ => absurd rfl h
  | it :: pre, post, i, hp, h => by
    have h1 : ¬ (t = it.title ∧ a = it.author ∧ l = it.location) := by
      intro hm
      apply h it (by simp)
      rw [Book.eq_mk_iff]
      exact ⟨hm.1.symm, hm.2.1.symm, hm.2.2.symm⟩
    have h2 := submitScan_match t a l pre post (i + 1) hp
      (fun b hb => h b (by simp [hb]))
    cases hpre : pre ++ { title := t, author := a, location := l } :: post with
    | nil => simp at hpre
    | cons nxt rest =>
      rw [hpre] at h2
      rw [List.cons_append, hpre, submitScan, if_neg h1, h2]
      simp
      omega

theorem storedBook_of_short (t a l : CStr) (ht : t.length < 100) (ha : a.length < 100) :
    storedBook t a l = { title := t, author := a, location := l } := by
  simp [storedBook, ht, ha]

theorem nodeOverrun_of_short (t a l : CStr) (ht : t.length < 100) (ha : a.length < 100)
    (hl : l.length < 100) : nodeOverrun t a l = none := by
  have h : ¬ (300 ≤ t.length ∨ 200 ≤ a.length ∨ 100 ≤ l.length) := by omega
  simp only [nodeOverrun, if_neg h]

theorem submitBook_append (head : Catalog) (t a l : CStr)
    (h : ∀ b ∈ head.dropLast, b ≠ { title := t, author := a, location := l }) :
    submitBook head t a l =
      { catalog := head ++ [storedBook t a l],
        responses := [submittedResponse t a l], fault := nodeOverrun t a l } := by
  cases head with
  | nil => simp [submitBook, sendServerResponse_strlen]
  | cons b rest =>
    simp only [submitBook, submitScan_no_match t a l (b :: rest) 0 h, sendServerResponse_strlen]
    simp

theorem submitBook_truncate (pre post : List Book) (t a l : CStr) (hpost : post ≠ [])
    (h : ∀ b ∈ pre, b ≠ { title := t, author := a, location := l }) :
    submitBook (pre ++ { title := t, author := a, location := l } :: post) t a l =
      { catalog := pre ++ [{ title := t, author := a, location := l }, storedBook t a l],
        responses := [duplicateResponse, submittedResponse t a l],
        fault := nodeOverrun t a l } := by
  have hs := submitScan_match t a l pre post 0 hpost h
  cases hc : pre ++ { title := t, author := a, location := l } :: post with
  | nil => simp at hc
  | cons b rest =>
    rw [hc] at hs
    simp only [submitBook, hs, sendServerResponse_strlen]
    rw [← hc]
    simp [List.take_append_eq_append_take]

theorem removeScan_none (t a l : CStr) :
    ∀ (c : List Book) (i : Nat),
      (∀ b ∈ c, b ≠ { title := t, author := a, location := l }) →
      removeScan t a l c i = none
  | [], _, _ => by simp [removeScan]
  | it :: rest, i, h => by
    have h1 : ¬ (it.title = t ∧ it.author = a ∧ it.location = l) := by
      intro hm
      exact h it (by simp) ((Book.eq_mk_iff it t a l).2 hm)
    rw [removeScan, if_neg h1]
    exact removeScan_none t a l rest (i + 1) (fun b hb => h b (by simp [hb]))

theorem removeScan_some (t a l : CStr) :
    ∀ (pre post : List Book) (i : Nat),
      (∀ b ∈ pre, b ≠ { title := t, author := a, location := l }) →
      removeScan t a l (pre ++ { title := t, author := a, location := l } :: post) i
        = some (i + pre.length)
  | [], post, i, _ => by simp [removeScan]
  | it :: pre, post, i, h => by
    have h1 : ¬ (it.title = t ∧ it.author = a ∧ it.location = l) := by
      intro hm
      exact h it (by simp) ((Book.eq_mk_iff it t a l).2 hm)
    rw [List.cons_append, removeScan, if_neg h1,
      removeScan_some t a l pre post (i + 1) (fun b hb => h b (by simp [hb]))]
    simp
    omega

theorem removeBook_absent (head : Catalog) (t a l : CStr)
    (h : ∀ b ∈ head, b ≠ { title := t, author := a, location := l }) :
    removeBook head t a l =
      { catalog := head,
        responses := [if head = [] then removeEmptyResponse else removeMissingResponse],
        applied := [], fault := none } := by
  match head, h with
  | [], _ => simp [removeBook, sendServerResponse_strlen]
  | [temp], h =>
    have h1 : ¬ (temp.author = a ∧ temp.title = t ∧ temp.location = l) := by
      intro hm
      exact h temp (by simp) ((Book.eq_mk_iff temp t a l).2 ⟨hm.2.1, hm.1, hm.2.2⟩)
    simp [removeBook, h1, sendServerResponse_strlen]
  | x :: y :: rest, h =>
    simp [removeBook, removeScan_none t a l (x :: y :: rest) 0 h, sendServerResponse_strlen]

theorem removeBook_first_match (pre post : List Book) (t a l : CStr)
    (hpre : ∀ b ∈ pre, b ≠ { title := t, author := a, location := l })
    (hpos : pre ≠ [] ∨ post = []) :
    (removeBook (pre ++ { title := t, author := a, location := l } :: post) t a l).catalog
        = pre ++ post ∧
    (removeBook (pre ++ { title := t, author := a, location := l } :: post) t a l).responses
        = [removedResponse t a l] ∧
    (removeBook (pre ++ { title := t, author := a, location := l } :: post) t a l).fault
        = none := by
  have hs := removeScan_some t a l pre post 0 hpre
  have htake : (pre ++ ({ title := t, author := a, location := l } : Book) :: post).take
      pre.length = pre := by simp
  have hdrop : (pre ++ ({ title := t, author := a, location := l } : Book) :: post).drop
      (pre.length + 1) = post := by
    rw [List.drop_append_eq_append_drop]; simp
  have hlen : (pre ++ ({ title := t, author := a, location := l } : Book) :: post).length
      = pre.length + post.length + 1 := by simp; omega
  generalize hc : pre ++ ({ title := t, author := a, location := l } : Book) :: post = head at *
  match head, hc with
  | [], hc => simp at hlen
  | [temp], hc =>
    have hp : pre = [] := by
      cases pre with
      | nil => rfl
      | cons x xs => simp at hlen
    have hq : post = [] := by
      cases post with
      | nil => rfl
      | cons x xs => simp at hlen
    subst hp; subst hq
    simp at hc
    subst hc
    simp [removeBook, sendServerResponse_strlen]
  | x :: y :: rest, hc =>
    have hp : pre ≠ [] := by
      rcases hpos with h | h
      · exact h
      · intro hp; subst hp; subst h; simp at hlen
    have hp0 : pre.length ≠ 0 := by
      intro h0; exact hp (List.length_eq_zero.1 h0)
    simp only [removeBook, hs, Nat.zero_add, sendServerResponse_strlen]
    by_cases hq : post = []
    · subst hq
      have hn : pre.length + 1 = (x :: y :: rest).length := by rw [hlen]; simp
      simp [hp0, hn, htake]
    · have hq0 : post.length ≠ 0 := by
        intro h0; exact hq (List.length_eq_zero.1 h0)
      have hn : ¬ (pre.length + 1 = (x :: y :: rest).length) := by rw [hlen]; omega
      simp only [hp0, hn, htake, hdrop]
      simp

theorem getBooksByAuthorLoop_found (q : CStr) :
    ∀ (c : List Book) (resp : CStr),
      getBooksByAuthorLoop q c true resp =
        (true, resp ++ blocks recordBlock (c.filter (fun b => decide (b.author = q))))
  | [], resp => by simp [getBooksByAuthorLoop, blocks]
  | b :: rest, resp => by
    by_cases hb : b.author = q
    · rw [getBooksByAuthorLoop, if_pos hb, getBooksByAuthorLoop_found q rest]
      simp [List.filter, hb, blocks, recordBlock]
    · rw [getBooksByAuthorLoop, if_neg hb, getBooksByAuthorLoop_found q rest]
      simp [List.filter, hb]

theorem getBooksByAuthorLoop_start (q : CStr) :
    ∀ (c : List Book) (resp : CStr),
      getBooksByAuthorLoop q c false resp =
        if c.filter (fun b => decide (b.author = q)) = [] then (false, resp)
        else (true, "202:RETRIEVED\n".toList
          ++ blocks recordBlock (c.filter (fun b => decide (b.author = q))))
  | [], resp => by simp [getBooksByAuthorLoop]
  | b :: rest, resp => by
    by_cases hb : b.author = q
    · rw [getBooksByAuthorLoop, if_pos hb, getBooksByAuthorLoop_found q rest]
      simp [List.filter, hb, blocks, recordBlock]
    · rw [getBooksByAuthorLoop, if_neg hb, getBooksByAuthorLoop_start q rest]
      simp [List.filter, hb]

theorem getBooksByAuthor_closed (head : Catalog) (q : CStr) :
    getBooksByAuthor head q =
      if head.filter (fun b => decide (b.author = q)) = [] then
        { catalog := head, responses := [authorNotFoundResponse], fault := none }
      else if strlen ("202:RETRIEVED\n".toList
          ++ blocks recordBlock (head.filter (fun b => decide (b.author = q)))) < 1000 then
        { catalog := head,
          responses := ["202:RETRIEVED\n".toList
            ++ blocks recordBlock (head.filter (fun b => decide (b.author = q)))],
          fault := none }
      else
        { catalog := head, responses := [], fault := some Fault.bufferOverflow } := by
  unfold getBooksByAuthor
  by_cases h : head.filter (fun b => decide (b.author = q)) = []
  · simp only [getBooksByAuthorLoop_start, if_pos h, sendServerResponse_strlen]
    rfl
  · have ht : ¬ ((true, "202:RETRIEVED\n".toList
        ++ blocks recordBlock (head.filter (fun b => decide (b.author = q)))).1 = false) := by
      simp
    simp only [getBooksByAuthorLoop_start, if_neg h, sendServerResponse_strlen, if_neg ht]

theorem getBooksWithTitleLoop_found (q : CStr) :
    ∀ (c : List Book) (resp : CStr),
      getBooksWithTitleLoop q c true resp =
        (true, resp ++ blocks recordBlock (c.filter (fun b => decide (b.title = q))))
  | [], resp => by simp [getBooksWithTitleLoop, blocks]
  | b :: rest, resp => by
    by_cases hb : b.title = q
    · rw [getBooksWithTitleLoop, if_pos hb, getBooksWithTitleLoop_found q rest]
      simp [List.filter, hb, blocks, recordBlock]
    · rw [getBooksWithTitleLoop, if_neg hb, getBooksWithTitleLoop_found q rest]
      simp [List.filter, hb]

theorem getBooksWithTitleLoop_start (q : CStr) :
    ∀ (c : List Book) (resp : CStr),
      getBooksWithTitleLoop q c false resp =
        if c.filter (fun b => decide (b.title = q)) = [] then (false, resp)
        else (true, "202:RETRIEVED\n".toList
          ++ blocks recordBlock (c.filter (fun b => decide (b.title = q))))
  | [], resp => by simp [getBooksWithTitleLoop]
  | b :: rest, resp => by
    by_cases hb : b.title = q
    · rw [getBooksWithTitleLoop, if_pos hb, getBooksWithTitleLoop_found q rest]
      simp [List.filter, hb, blocks, recordBlock]
    · rw [getBooksWithTitleLoop, if_neg hb, getBooksWithTitleLoop_start q rest]
      simp [List.filter, hb]

theorem getBooksWithTitle_closed (head : Catalog) (q : CStr) :
    getBooksWithTitle head q =
      if head.filter (fun b => decide (b.title = q)) = [] then
        { catalog := head, responses := [titleNotFoundResponse], fault := none }
      else if strlen ("202:RETRIEVED\n".toList
          ++ blocks recordBlock (head.filter (fun b => decide (b.title = q)))) < 1000 then
        { catalog := head,
          responses := ["202:RETRIEVED\n".toList
            ++ blocks recordBlock (head.filter (fun b => decide (b.title = q)))],
          fault := none }
      else
        { catalog := head, responses := [], fault := some Fault.bufferOverflow } := by
  unfold getBooksWithTitle
  by_cases h : head.filter (fun b => decide (b.title = q)) = []
  · simp only [getBooksWithTitleLoop_start, if_pos h, sendServerResponse_strlen]
    rfl
  · have ht : ¬ ((true, "202:RETRIEVED\n".toList
        ++ blocks recordBlock (head.filter (fun b => decide (b.title = q)))).1 = false) := by
      simp
    simp only [getBooksWithTitleLoop_start, if_neg h, sendServerResponse_strlen, if_neg ht]

theorem getSpecificBookLoop_found (t a : CStr) :
    ∀ (c : List Book) (resp : CStr),
      getSpecificBookLoop t a c true resp =
        (true, resp ++ blocks locationBlock
          (c.filter (fun b => decide (b.title = t ∧ b.author = a))))
  | [], resp => by simp [getSpecificBookLoop, blocks]
  | b :: rest, resp => by
    by_cases hb : b.title = t ∧ b.author = a
    · rw [getSpecificBookLoop, if_pos hb, getSpecificBookLoop_found t a rest]
      simp [List.filter, hb, blocks, locationBlock]
    · rw [getSpecificBookLoop, if_neg hb, getSpecificBookLoop_found t a rest]
      simp [List.filter, hb]

theorem getSpecificBookLoop_start (t a : CStr) :
    ∀ (c : List Book) (resp : CStr),
      getSpecificBookLoop t a c false resp =
        if c.filter (fun b => decide (b.title = t ∧ b.author = a)) = [] then (false, resp)
        else (true, "202:RETRIEVED\n".toList ++ blocks locationBlock
          (c.filter (fun b => decide (b.title = t ∧ b.author = a))))
  | [], resp => by simp [getSpecificBookLoop]
  | b :: rest, resp => by
    by_cases hb : b.title = t ∧ b.author = a
    · rw [getSpecificBookLoop, if_pos hb, getSpecificBookLoop_found t a rest]
      simp [List.filter, hb, blocks, locationBlock]
    · rw [getSpecificBookLoop, if_neg hb, getSpecificBookLoop_start t a rest]
      simp [List.filter, hb]

theorem getSpecificBook_closed (head : Catalog) (t a : CStr) :
    getSpecificBook head t a =
      if head.filter (fun b => decide (b.title = t ∧ b.author = a)) = [] then
        { catalog := head, responses := [specificNotFoundResponse], fault := none }
      else if strlen ("202:RETRIEVED\n".toList
          ++ blocks locationBlock (head.filter (fun b => decide (b.title = t ∧ b.author = a)))) < 1000 then
        { catalog := head,
          responses := ["202:RETRIEVED\n".toList
            ++ blocks locationBlock (head.filter (fun b => decide (b.title = t ∧ b.author = a)))],
          fault := none }
      else
        { catalog := head, responses := [], fault := some Fault.bufferOverflow } := by
  unfold getSpecificBook
  by_cases h : head.filter (fun b => decide (b.title = t ∧ b.author = a)) = []
  · simp only [getSpecificBookLoop_start, if_pos h, sendServerResponse_strlen]
    rfl
  · have ht : ¬ ((true, "202:RETRIEVED\n".toList
        ++ blocks locationBlock (head.filter (fun b => decide (b.title = t ∧ b.author = a)))).1 = false) := by
      simp
    simp only [getSpecificBookLoop_start, if_neg h, sendServerResponse_strlen, if_neg ht]

theorem blocks_append (block : Book → CStr) (xs ys : List Book) :
    blocks block (xs ++ ys) = blocks block xs ++ blocks block ys := by
  induction xs with
  | nil => simp [blocks]
  | cons x xs ih => simp [blocks, ih]

theorem submitBook_twice (head : Catalog) (t a l : CStr)
    (h : ∀ b ∈ head, b ≠ { title := t, author := a, location := l }) :
    submitBook (submitBook head t a l).catalog t a l =
      { catalog := head ++ [storedBook t a l, storedBook t a l],
        responses := [submittedResponse t a l], fault := nodeOverrun t a l } := by
  rw [submitBook_append head t a l (fun b hb => h b (List.mem_of_mem_dropLast hb))]
  rw [submitBook_append _ t a l (by simpa using h)]
  simp

theorem submitBook_catalog_last (head : Catalog) (t a l : CStr) :
    ∃ kept, (submitBook head t a l).catalog = kept ++ [storedBook t a l] := by
  cases head with
  | nil => exact ⟨[], by simp [submitBook]⟩
  | cons b rest => exact ⟨_, rfl⟩

theorem submitBook_fault (head : Catalog) (t a l : CStr) :
    (submitBook head t a l).fault = nodeOverrun t a l := by
  cases head <;> rfl

theorem submitBook_responses_last (head : Catalog) (t a l : CStr) :
    ∃ before, (submitBook head t a l).responses = before ++ [submittedResponse t a l] := by
  cases head with
  | nil => exact ⟨[], by simp [submitBook, sendServerResponse_strlen]⟩
  | cons b rest =>
    exact ⟨if (submitScan t a l (b :: rest) 0).2 = true then [duplicateResponse] else [],
      by simp only [submitBook, sendServerResponse_strlen]⟩

/-! ## The claims -/

/-- C1, evaluated at two catalogs that already hold the Dune record.  On
`[dune, emma]` the call sends DUPLICATE and then SUBMITTED, and the catalog
becomes `[dune, dune]`.  On `[dune]` the call sends SUBMITTED only and the
catalog becomes `[dune, dune]`.  In neither case is the catalog left as it
was. -/
theorem submitBook_on_held_record :
    dune ∈ [dune, emma] ∧
    submitBook [dune, emma] dune.title dune.author dune.location =
      { catalog := [dune, dune],
        responses := [duplicateResponse,
          submittedResponse dune.title dune.author dune.location],
        fault := none } ∧
    submitBook [dune] dune.title dune.author dune.location =
      { catalog := [dune, dune],
        responses := [submittedResponse dune.title dune.author dune.location],
        fault := none } ∧
    isSubmitted (submittedResponse dune.title dune.author dune.location) = true := by
  decide

set_option maxRecDepth 100000 in
/-- C2 as stated fails on the catalog `[emma]` and the triple whose title is
100 times `x`, with the author Herbert and the location Shelf3.  No record of
the catalog equals the triple and one SUBMITTED response is sent, but the new
record does not hold the triple: the array `title` of the node is filled
without a NUL, so the title of the record reads as the submitted title
followed by the author. -/
theorem submitBook_title_runs_into_author :
    (∀ b ∈ [emma], ¬ (b.title = List.replicate 100 'x' ∧ b.author = "Herbert".toList
      ∧ b.location = "Shelf3".toList)) ∧
    submitBook [emma] (List.replicate 100 'x') "Herbert".toList "Shelf3".toList =
      { catalog := [emma, { title := List.replicate 100 'x' ++ "Herbert".toList,
                            author := "Herbert".toList, location := "Shelf3".toList }],
        responses := [submittedResponse (List.replicate 100 'x') "Herbert".toList
          "Shelf3".toList],
        fault := none } ∧
    (submitBook [emma] (List.replicate 100 'x') "Herbert".toList "Shelf3".toList).catalog ≠
      [emma] ++ [{ title := List.replicate 100 'x', author := "Herbert".toList,
                   location := "Shelf3".toList }] := by
  decide

/-- C2 as amended: when no record of the catalog equals (title, author,
location) and the title, the author and the location are each shorter than
100 bytes, `submitBook` leaves the old catalog followed by one new record
with that triple, sends exactly one response, and that response is a
SUBMITTED one; no write leaves the arrays of the node. -/
theorem submitBook_new_record (head : Catalog) (title author location : CStr)
    (hnew : ∀ b ∈ head, ¬ (b.title = title ∧ b.author = author ∧ b.location = location))
    (htitle : title.length < 100) (hauthor : author.length < 100)
    (hlocation : location.length < 100) :
    submitBook head title author location =
      { catalog := head ++ [{ title := title, author := author, location := location }],
        responses := [submittedResponse title author location],
        fault := none } ∧
    isSubmitted (submittedResponse title author location) = true := by
  refine ⟨?_, isSubmitted_submitted title author location⟩
  rw [submitBook_append head title author location (fun b hb heq =>
      hnew b (List.mem_of_mem_dropLast hb) ((Book.eq_mk_iff b title author location).1 heq)),
    storedBook_of_short title author location htitle hauthor,
    nodeOverrun_of_short title author location htitle hauthor hlocation]

/-- C2 as amended, at the catalog `[emma, ulysses]` and the Dune triple. -/
theorem submitBook_new_record_witness :
    (∀ b ∈ [emma, ulysses],
      ¬ (b.title = dune.title ∧ b.author = dune.author ∧ b.location = dune.location)) ∧
    (dune.title.length < 100 ∧ dune.author.length < 100 ∧ dune.location.length < 100) ∧
    (submitBook [emma, ulysses] dune.title dune.author dune.location =
      { catalog := [emma, ulysses] ++
          [{ title := dune.title, author := dune.author, location := dune.location }],
        responses := [submittedResponse dune.title dune.author dune.location],
        fault := none } ∧
     isSubmitted (submittedResponse dune.title dune.author dune.location) = true) :=
  ⟨by decide, by decide,
   submitBook_new_record [emma, ulysses] dune.title dune.author dune.location (by decide)
     (by decide) (by decide) (by decide)⟩

/-- C3, evaluated on the empty catalog: submitting the Dune triple twice in
succession gives a SUBMITTED response both times, no DUPLICATE response, and
a catalog that holds the record twice. -/
theorem submitBook_twice_on_empty :
    submitBook [] dune.title dune.author dune.location =
      { catalog := [dune],
        responses := [submittedResponse dune.title dune.author dune.location],
        fault := none } ∧
    submitBook [dune] dune.title dune.author dune.location =
      { catalog := [dune, dune],
        responses := [submittedResponse dune.title dune.author dune.location],
        fault := none } ∧
    isDuplicate (submittedResponse dune.title dune.author dune.location) = false ∧
    List.count dune [dune, dune] = 2 := by
  decide

/-- C4 as stated fails on `[emma, dune, dune]`: the catalog holds the Dune
record, `removeBook` removes its first occurrence and leaves `[emma, dune]`,
and the immediately following identical call answers REMOVED, not NOT
FOUND. -/
theorem removeBook_again_still_removed :
    dune ∈ [emma, dune, dune] ∧
    removeBook [emma, dune, dune] dune.title dune.author dune.location =
      { catalog := [emma, dune],
        responses := [removedResponse dune.title dune.author dune.location],
        applied := [RemovalCase.middleBook], fault := none } ∧
    removeBook [emma, dune] dune.title dune.author dune.location =
      { catalog := [emma],
        responses := [removedResponse dune.title dune.author dune.location],
        applied := [RemovalCase.lastBook], fault := none } ∧
    isNotFound (removedResponse dune.title dune.author dune.location) = false := by
  decide

/-- C4 as amended: when the first record equal to (title, author, location)
is not the head of a catalog of several records (it is the only record, or
records stand before it), `removeBook` leaves the catalog with exactly that
record absent and every other record in its original order, sends one
REMOVED response and runs into no memory error; and when no later record
holds the same triple, an immediately following identical call leaves that
catalog as it is and answers with one NOT FOUND response. -/
theorem removeBook_removes_first_match (pre post : List Book)
    (title author location : CStr)
    (hpre : ∀ b ∈ pre, b ≠ { title := title, author := author, location := location })
    (hpos : pre ≠ [] ∨ post = []) :
    (removeBook (pre ++ { title := title, author := author, location := location } :: post)
        title author location).catalog = pre ++ post ∧
    (removeBook (pre ++ { title := title, author := author, location := location } :: post)
        title author location).responses = [removedResponse title author location] ∧
    isRemoved (removedResponse title author location) = true ∧
    (removeBook (pre ++ { title := title, author := author, location := location } :: post)
        title author location).fault = none ∧
    ((∀ b ∈ post, b ≠ { title := title, author := author, location := location }) →
      ∃ r, removeBook (pre ++ post) title author location =
          { catalog := pre ++ post, responses := [r], applied := [], fault := none } ∧
        isNotFound r = true) := by
  obtain ⟨hc, hr, hf⟩ := removeBook_first_match pre post title author location hpre hpos
  refine ⟨hc, hr, isRemoved_removed title author location, hf, ?_⟩
  intro hpost
  have habs : ∀ b ∈ pre ++ post,
      b ≠ { title := title, author := author, location := location } := by
    intro b hb
    rcases List.mem_append.1 hb with h | h
    · exact hpre b h
    · exact hpost b h
  refine ⟨_, removeBook_absent (pre ++ post) title author location habs, ?_⟩
  split
  · exact isNotFound_removeEmpty
  · exact isNotFound_removeMissing

/-- C4 as amended, at the catalog `[emma, dune, ulysses]` and the Dune triple. -/
theorem removeBook_removes_first_match_witness :
    (∀ b ∈ [emma], b ≠ dune) ∧
    ([emma] ≠ [] ∨ [ulysses] = []) ∧
    ((removeBook ([emma] ++ dune :: [ulysses])
        dune.title dune.author dune.location).catalog = [emma] ++ [ulysses] ∧
      (removeBook ([emma] ++ dune :: [ulysses])
        dune.title dune.author dune.location).responses
          = [removedResponse dune.title dune.author dune.location] ∧
      isRemoved (removedResponse dune.title dune.author dune.location) = true ∧
      (removeBook ([emma] ++ dune :: [ulysses])
        dune.title dune.author dune.location).fault = none ∧
      ((∀ b ∈ [ulysses], b ≠ dune) →
        ∃ r, removeBook ([emma] ++ [ulysses]) dune.title dune.author dune.location =
            { catalog := [emma] ++ [ulysses], responses := [r], applied := [],
              fault := none } ∧
          isNotFound r = true)) :=
  ⟨by decide, Or.inl (by decide),
   removeBook_removes_first_match [emma] [ulysses] dune.title dune.author dune.location
     (by decide) (Or.inl (by decide))⟩

/-- C5, evaluated on `[dune, emma]` with the Dune triple, the head of a
catalog of two records: the first-Book block runs (the head moves to the
second record, the node is freed, REMOVED is sent) and the call then goes on
into the second `if`, whose condition reads `it->previous` of the freed
node. -/
theorem removeBook_head_reads_freed_node :
    removeBook [dune, emma] dune.title dune.author dune.location =
      { catalog := [emma],
        responses := [removedResponse dune.title dune.author dune.location],
        applied := [RemovalCase.firstBook],
        fault := some Fault.useAfterFree } := by
  decide

/-- C6: when no record of the catalog matches (title, author, location) on
all three fields, the empty catalog included, `removeBook` sends exactly one
response, a NOT FOUND one, leaves the catalog as it was, unlinks nothing and
runs into no memory error. -/
theorem removeBook_not_found (head : Catalog) (title author location : CStr)
    (habsent : ∀ b ∈ head,
      ¬ (b.title = title ∧ b.author = author ∧ b.location = location)) :
    ∃ r, removeBook head title author location =
        { catalog := head, responses := [r], applied := [], fault := none } ∧
      isNotFound r = true := by
  have h : ∀ b ∈ head, b ≠ { title := title, author := author, location := location } :=
    fun b hb heq => habsent b hb ((Book.eq_mk_iff b title author location).1 heq)
  refine ⟨_, removeBook_absent head title author location h, ?_⟩
  split
  · exact isNotFound_removeEmpty
  · exact isNotFound_removeMissing

/-- C6 at the catalog `[emma, ulysses]` and the Dune triple. -/
theorem removeBook_not_found_witness :
    (∀ b ∈ [emma, ulysses],
      ¬ (b.title = dune.title ∧ b.author = dune.author ∧ b.location = dune.location)) ∧
    (∃ r, removeBook [emma, ulysses] dune.title dune.author dune.location =
        { catalog := [emma, ulysses], responses := [r], applied := [], fault := none } ∧
      isNotFound r = true) :=
  ⟨by decide,
   removeBook_not_found [emma, ulysses] dune.title dune.author dune.location (by decide)⟩

set_option maxRecDepth 100000 in
/-- C9 as stated fails on the empty catalog and the triple whose title is 100
times `x`, with the author Herbert and the location Shelf3: `submitBook`
answers SUBMITTED, but the title of the stored record reads as the submitted
title followed by the author, so `getBooksWithTitle` and
`getSpecificBook`, asked for the submitted title, answer NOT FOUND. -/
theorem submitBook_then_get_long_title :
    (submitBook [] (List.replicate 100 'x') "Herbert".toList "Shelf3".toList).responses =
      [submittedResponse (List.replicate 100 'x') "Herbert".toList "Shelf3".toList] ∧
    getBooksWithTitle
        (submitBook [] (List.replicate 100 'x') "Herbert".toList "Shelf3".toList).catalog
        (List.replicate 100 'x') =
      { catalog :=
          (submitBook [] (List.replicate 100 'x') "Herbert".toList "Shelf3".toList).catalog,
        responses := [titleNotFoundResponse], fault := none } ∧
    getSpecificBook
        (submitBook [] (List.replicate 100 'x') "Herbert".toList "Shelf3".toList).catalog
        (List.replicate 100 'x') "Herbert".toList =
      { catalog :=
          (submitBook [] (List.replicate 100 'x') "Herbert".toList "Shelf3".toList).catalog,
        responses := [specificNotFoundResponse], fault := none } ∧
    isNotFound titleNotFoundResponse = true ∧ isNotFound specificNotFoundResponse = true := by
  decide

/-- C9 as amended: for every catalog and every triple whose title, author
and location are each shorter than 100 bytes, `submitBook` sends the
SUBMITTED response as its last response and leaves a catalog that ends with
the submitted record, without writing past the arrays of the node; on that
catalog each GET operation whose RETRIEVED text
is shorter than 1000 bytes answers with that text: `getSpecificBook` with the
block of the submitted location, `getBooksByAuthor` and `getBooksWithTitle`
with the block of the submitted record (in each case after the blocks of the
earlier matching records). -/
theorem submitBook_then_get (head : Catalog) (title author location : CStr)
    (htitle : title.length < 100) (hauthor : author.length < 100)
    (hlocation : location.length < 100) :
    ∃ kept before,
      (submitBook head title author location).responses
        = before ++ [submittedResponse title author location] ∧
      (submitBook head title author location).catalog
        = kept ++ [{ title := title, author := author, location := location }] ∧
      (submitBook head title author location).fault = none ∧
      (strlen ("202:RETRIEVED\n".toList
          ++ blocks locationBlock
              (kept.filter (fun b => decide (b.title = title ∧ b.author = author)))
          ++ locationBlock { title := title, author := author, location := location })
          < 1000 →
        getSpecificBook (submitBook head title author location).catalog title author =
          { catalog := (submitBook head title author location).catalog,
            responses := ["202:RETRIEVED\n".toList
              ++ blocks locationBlock
                  (kept.filter (fun b => decide (b.title = title ∧ b.author = author)))
              ++ locationBlock { title := title, author := author, location := location }],
            fault := none }) ∧
      (strlen ("202:RETRIEVED\n".toList
          ++ blocks recordBlock (kept.filter (fun b => decide (b.author = author)))
          ++ recordBlock { title := title, author := author, location := location })
          < 1000 →
        getBooksByAuthor (submitBook head title author location).catalog author =
          { catalog := (submitBook head title author location).catalog,
            responses := ["202:RETRIEVED\n".toList
              ++ blocks recordBlock (kept.filter (fun b => decide (b.author = author)))
              ++ recordBlock { title := title, author := author, location := location }],
            fault := none }) ∧
      (strlen ("202:RETRIEVED\n".toList
          ++ blocks recordBlock (kept.filter (fun b => decide (b.title = title)))
          ++ recordBlock { title := title, author := author, location := location })
          < 1000 →
        getBooksWithTitle (submitBook head title author location).catalog title =
          { catalog := (submitBook head title author location).catalog,
            responses := ["202:RETRIEVED\n".toList
              ++ blocks recordBlock (kept.filter (fun b => decide (b.title = title)))
              ++ recordBlock { title := title, author := author, location := location }],
            fault := none }) := by
  obtain ⟨kept, hk⟩ := submitBook_catalog_last head title author location
  obtain ⟨before, hb⟩ := submitBook_responses_last head title author location
  rw [storedBook_of_short title author location htitle hauthor] at hk
  refine ⟨kept, before, hb, hk, ?_, ?_, ?_, ?_⟩
  · rw [submitBook_fault, nodeOverrun_of_short title author location htitle hauthor hlocation]
  · intro hfit
    have hf : (kept ++ [({ title := title, author := author, location := location } : Book)]).filter
        (fun b => decide (b.title = title ∧ b.author = author))
        = kept.filter (fun b => decide (b.title = title ∧ b.author = author))
          ++ [{ title := title, author := author, location := location }] := by
      simp [List.filter_append]
    have hfit2 : strlen ("202:RETRIEVED\n".toList ++ blocks locationBlock
        (kept.filter (fun b => decide (b.title = title ∧ b.author = author))
          ++ [({ title := title, author := author, location := location } : Book)])) < 1000 := by
      simpa [blocks_append, blocks] using hfit
    rw [hk, getSpecificBook_closed, hf, if_neg (by simp), if_pos hfit2]
    simp [blocks_append, blocks]
  · intro hfit
    have hf : (kept ++ [({ title := title, author := author, location := location } : Book)]).filter
        (fun b => decide (b.author = author))
        = kept.filter (fun b => decide (b.author = author))
          ++ [{ title := title, author := author, location := location }] := by
      simp [List.filter_append]
    have hfit2 : strlen ("202:RETRIEVED\n".toList ++ blocks recordBlock
        (kept.filter (fun b => decide (b.author = author))
          ++ [({ title := title, author := author, location := location } : Book)])) < 1000 := by
      simpa [blocks_append, blocks] using hfit
    rw [hk, getBooksByAuthor_closed, hf, if_neg (by simp), if_pos hfit2]
    simp [blocks_append, blocks]
  · intro hfit
    have hf : (kept ++ [({ title := title, author := author, location := location } : Book)]).filter
        (fun b => decide (b.title = title))
        = kept.filter (fun b => decide (b.title = title))
          ++ [{ title := title, author := author, location := location }] := by
      simp [List.filter_append]
    have hfit2 : strlen ("202:RETRIEVED\n".toList ++ blocks recordBlock
        (kept.filter (fun b => decide (b.title = title))
          ++ [({ title := title, author := author, location := location } : Book)])) < 1000 := by
      simpa [blocks_append, blocks] using hfit
    rw [hk, getBooksWithTitle_closed, hf, if_neg (by simp), if_pos hfit2]
    simp [blocks_append, blocks]

/-- C9 as amended, at the catalog `[emma]` and the Dune triple: the catalog
becomes `[emma, dune]` and `getSpecificBook` answers with the location
Shelf3. -/
theorem submitBook_then_get_witness :
    (dune.title.length < 100 ∧ dune.author.length < 100 ∧ dune.location.length < 100) ∧
    (submitBook [emma] dune.title dune.author dune.location).catalog = [emma, dune] ∧
    getSpecificBook (submitBook [emma] dune.title dune.author dune.location).catalog
        dune.title dune.author =
      { catalog := [emma, dune],
        responses := ["202:RETRIEVED\nLOCATION:Shelf3\n\n".toList], fault := none } ∧
    (∃ kept before,
      (submitBook [emma] dune.title dune.author dune.location).responses
        = before ++ [submittedResponse dune.title dune.author dune.location] ∧
      (submitBook [emma] dune.title dune.author dune.location).catalog
        = kept ++ [{ title := dune.title, author := dune.author, location := dune.location }]) :=
  ⟨by decide, by decide, by decide,
   let ⟨kept, before, h1, h2, _⟩ :=
     submitBook_then_get [emma] dune.title dune.author dune.location (by decide) (by decide)
       (by decide)
   ⟨kept, before, h1, h2⟩⟩

theorem countUntil_eq_takeWhile (d : Char) :
    ∀ l : List Char, countUntil d l = (l.takeWhile (fun c => c != d)).length
  | [] => rfl
  | c :: rest => by
    by_cases h : c = d
    · simp [countUntil, List.takeWhile_cons, h]
    · have hb : (c != d) = true := by simp [h]
      simp [countUntil, List.takeWhile_cons, h, hb, countUntil_eq_takeWhile d rest]

theorem take_countUntil (d : Char) :
    ∀ l : List Char, l.take (countUntil d l) = l.takeWhile (fun c => c != d)
  | [] => rfl
  | c :: rest => by
    by_cases h : c = d
    · simp [countUntil, List.takeWhile_cons, h]
    · have hb : (c != d) = true := by simp [h]
      simp [countUntil, List.takeWhile_cons, h, hb, take_countUntil d rest]

theorem countUntil_of_not_mem (d : Char) :
    ∀ k : List Char, d ∉ k → countUntil d k = k.length
  | [], _ => rfl
  | c :: rest, h => by
    have h1 : c ≠ d := fun e => h (by simp [e])
    have h2 : d ∉ rest := fun e => h (by simp [e])
    simp [countUntil, h1, countUntil_of_not_mem d rest h2]

theorem countUntil_append (d : Char) (rest : List Char) :
    ∀ k : List Char, d ∉ k → countUntil d (k ++ d :: rest) = k.length
  | [], _ => by simp [countUntil]
  | c :: more, h => by
    have h1 : c ≠ d := fun e => h (by simp [e])
    have h2 : d ∉ more := fun e => h (by simp [e])
    simp [countUntil, h1, countUntil_append d rest more h2]

theorem parseRequest_pair_last (k v : CStr) (hk : ':' ∉ k) (hv : ',' ∉ v) :
    parseRequest (k ++ ':' :: v) = { requestMessage := [], method := k, value := v } := by
  have hm : countUntil ':' (k ++ ':' :: v) = k.length := countUntil_append ':' v k hk
  have hd : (k ++ ':' :: v).drop (k.length + 1) = v := by
    rw [List.drop_append_eq_append_drop]; simp
  have hvl : countUntil ',' v = v.length := countUntil_of_not_mem ',' v hv
  have hne : ¬ strlen (k ++ ':' :: v) = 0 := by simp [strlen]
  simp only [parseRequest, if_neg hne, hm, hd, hvl]
  have hlen : ¬ ((strlen (k ++ ':' :: v) : Int) - ((k.length + v.length + 2 : Nat) : Int) > 0) := by
    simp [strlen]; omega
  rw [if_neg hlen]
  simp

theorem parseRequest_pair_more (k v rest : CStr) (hk : ':' ∉ k) (hv : ',' ∉ v) :
    parseRequest (k ++ ':' :: v ++ ',' :: rest)
      = { requestMessage := rest, method := k, value := v } := by
  have hb : k ++ ':' :: v ++ ',' :: rest = k ++ ':' :: (v ++ ',' :: rest) := by simp
  have hm : countUntil ':' (k ++ ':' :: v ++ ',' :: rest) = k.length := by
    rw [hb]; exact countUntil_append ':' _ k hk
  have hd : (k ++ ':' :: v ++ ',' :: rest).drop (k.length + 1) = v ++ ',' :: rest := by
    rw [hb, List.drop_append_eq_append_drop]; simp
  have hvl : countUntil ',' (v ++ ',' :: rest) = v.length := countUntil_append ',' rest v hv
  have hne : ¬ strlen (k ++ ':' :: v ++ ',' :: rest) = 0 := by simp [strlen]
  have hdr : (k ++ ':' :: v ++ ',' :: rest).drop (k.length + v.length + 2) = rest := by
    have : k.length + v.length + 2 = (k ++ ':' :: v ++ [',']).length := by simp; omega
    rw [this]
    have hb2 : k ++ ':' :: v ++ ',' :: rest = (k ++ ':' :: v ++ [',']) ++ rest := by simp
    rw [hb2, List.drop_left]
  simp only [parseRequest, if_neg hne, hm, hd, hvl, hdr]
  by_cases hr : rest = []
  · have hlen : ¬ ((strlen (k ++ ':' :: v ++ ',' :: rest) : Int)
        - ((k.length + v.length + 2 : Nat) : Int) > 0) := by
      subst hr; simp [strlen]; omega
    rw [if_neg hlen]
    simp [hr]
  · have hpos : 0 < rest.length := List.length_pos.2 hr
    have hlen : (strlen (k ++ ':' :: v ++ ',' :: rest) : Int)
        - ((k.length + v.length + 2 : Nat) : Int) > 0 := by
      simp [strlen]; omega
    rw [if_pos hlen]
    simp

theorem parseRequest_joinPairs (k v : CStr) (fields : List (CStr × CStr))
    (hk : ':' ∉ k) (hv : ',' ∉ v) :
    parseRequest (joinPairs ((k, v) :: fields))
      = { requestMessage := joinPairs fields, method := k, value := v } := by
  cases fields with
  | nil => simpa [joinPairs] using parseRequest_pair_last k v hk hv
  | cons q rest =>
    simpa [joinPairs] using parseRequest_pair_more k v (joinPairs (q :: rest)) hk hv

theorem parseRequest_nil : parseRequest [] = { requestMessage := [], method := [], value := [] } :=
  rfl

theorem parseRepeatedly_nil : ∀ n : Nat,
    parseRepeatedly n [] = (List.replicate n ([], []), [])
  | 0 => rfl
  | n + 1 => by
    simp [parseRepeatedly, parseRequest_nil, parseRepeatedly_nil n, List.replicate]

theorem parseRepeatedly_joinPairs :
    ∀ pairs : List (CStr × CStr), (∀ p ∈ pairs, ':' ∉ p.1 ∧ ',' ∉ p.2) →
      parseRepeatedly pairs.length (joinPairs pairs) = (pairs, [])
  | [], _ => rfl
  | (k, v) :: fields, h => by
    have hp := h (k, v) (by simp)
    have ih := parseRepeatedly_joinPairs fields (fun p hp => h p (by simp [hp]))
    simp only [List.length_cons, parseRepeatedly, parseRequest_joinPairs k v fields hp.1 hp.2, ih]

theorem parseRequest_of_ne_nil (buffer : CStr) (hne : buffer ≠ []) :
    parseRequest buffer =
      { requestMessage :=
          buffer.drop ((buffer.takeWhile (fun c => c != ':')).length
            + ((buffer.drop ((buffer.takeWhile (fun c => c != ':')).length + 1)).takeWhile
                (fun c => c != ',')).length + 2),
        method := buffer.takeWhile (fun c => c != ':'),
        value := (buffer.drop ((buffer.takeWhile (fun c => c != ':')).length + 1)).takeWhile
          (fun c => c != ',') } := by
  have h0 : ¬ strlen buffer = 0 := by
    simpa [strlen] using hne
  simp only [parseRequest, if_neg h0, take_countUntil]
  simp only [countUntil_eq_takeWhile]
  split
  · rfl
  · rename_i hlen
    have hle : buffer.length ≤ (buffer.takeWhile (fun c => c != ':')).length
        + ((buffer.drop ((buffer.takeWhile (fun c => c != ':')).length + 1)).takeWhile
            (fun c => c != ',')).length + 2 := by
      simp only [strlen] at hlen
      omega
    rw [List.drop_eq_nil_of_le hle]

/-- C11: the request line of the specification, with its final line feed
replaced by NUL as the handler does, is split by four successive
`parseRequest` calls into the pairs (METHOD, SUBMIT), (TITLE, Dune),
(AUTHOR, Herbert), (LOCATION, Shelf3), in that order, and the buffer is empty
after the fourth call.  In general, when no key holds a `:` and no value
holds a `,`, as many `parseRequest` calls as there are pairs, applied to the
pairs joined as `KEY:VALUE` with `,`, return these pairs in order and leave
the buffer empty. -/
theorem parseRequest_tokenizes (pairs : List (CStr × CStr))
    (hpairs : ∀ p ∈ pairs, ':' ∉ p.1 ∧ ',' ∉ p.2) :
    parseRepeatedly 4
        (cString "METHOD:SUBMIT,TITLE:Dune,AUTHOR:Herbert,LOCATION:Shelf3\n".toList.dropLast)
      = ([("METHOD".toList, "SUBMIT".toList), ("TITLE".toList, "Dune".toList),
          ("AUTHOR".toList, "Herbert".toList), ("LOCATION".toList, "Shelf3".toList)], []) ∧
    parseRepeatedly pairs.length (joinPairs pairs) = (pairs, []) :=
  ⟨by decide, parseRepeatedly_joinPairs pairs hpairs⟩

/-- C11 at the pairs (TITLE, Emma) and (AUTHOR, Austen). -/
theorem parseRequest_tokenizes_witness :
    (∀ p ∈ [("TITLE".toList, "Emma".toList), ("AUTHOR".toList, "Austen".toList)],
      ':' ∉ p.1 ∧ ',' ∉ p.2) ∧
    (parseRepeatedly 4
        (cString "METHOD:SUBMIT,TITLE:Dune,AUTHOR:Herbert,LOCATION:Shelf3\n".toList.dropLast)
      = ([("METHOD".toList, "SUBMIT".toList), ("TITLE".toList, "Dune".toList),
          ("AUTHOR".toList, "Herbert".toList), ("LOCATION".toList, "Shelf3".toList)], []) ∧
     parseRepeatedly [("TITLE".toList, "Emma".toList), ("AUTHOR".toList, "Austen".toList)].length
        (joinPairs [("TITLE".toList, "Emma".toList), ("AUTHOR".toList, "Austen".toList)])
      = ([("TITLE".toList, "Emma".toList), ("AUTHOR".toList, "Austen".toList)], [])) :=
  ⟨by decide,
   parseRequest_tokenizes [("TITLE".toList, "Emma".toList), ("AUTHOR".toList, "Austen".toList)]
     (by decide)⟩

/-- C12: on a non-empty buffer `parseRequest` returns as KEY the characters
before the first `:` and as VALUE the characters between that `:` and the
first `,` after it (or the end of the buffer), and leaves the buffer without
its first len(KEY) + len(VALUE) + 2 characters, which is the empty string
when the buffer is no longer than that. -/
theorem parseRequest_key_value_rest (buffer : CStr) (hne : buffer ≠ []) :
    (parseRequest buffer).method = buffer.takeWhile (fun c => c != ':') ∧
    (parseRequest buffer).value =
      (buffer.drop ((parseRequest buffer).method.length + 1)).takeWhile (fun c => c != ',') ∧
    (parseRequest buffer).requestMessage =
      buffer.drop ((parseRequest buffer).method.length + (parseRequest buffer).value.length + 2) ∧
    (buffer.length ≤ (parseRequest buffer).method.length + (parseRequest buffer).value.length + 2 →
      (parseRequest buffer).requestMessage = []) := by
  rw [parseRequest_of_ne_nil buffer hne]
  refine ⟨rfl, rfl, rfl, ?_⟩
  intro hle
  exact List.drop_eq_nil_of_le hle

/-- C12 at the buffer `TITLE:Dune,AUTHOR:Herbert`. -/
theorem parseRequest_key_value_rest_witness :
    "TITLE:Dune,AUTHOR:Herbert".toList ≠ [] ∧
    ((parseRequest "TITLE:Dune,AUTHOR:Herbert".toList).method =
        "TITLE:Dune,AUTHOR:Herbert".toList.takeWhile (fun c => c != ':') ∧
     (parseRequest "TITLE:Dune,AUTHOR:Herbert".toList).value =
        ("TITLE:Dune,AUTHOR:Herbert".toList.drop
          ((parseRequest "TITLE:Dune,AUTHOR:Herbert".toList).method.length + 1)).takeWhile
            (fun c => c != ',') ∧
     (parseRequest "TITLE:Dune,AUTHOR:Herbert".toList).requestMessage =
        "TITLE:Dune,AUTHOR:Herbert".toList.drop
          ((parseRequest "TITLE:Dune,AUTHOR:Herbert".toList).method.length
            + (parseRequest "TITLE:Dune,AUTHOR:Herbert".toList).value.length + 2) ∧
     ("TITLE:Dune,AUTHOR:Herbert".toList.length ≤
        (parseRequest "TITLE:Dune,AUTHOR:Herbert".toList).method.length
          + (parseRequest "TITLE:Dune,AUTHOR:Herbert".toList).value.length + 2 →
      (parseRequest "TITLE:Dune,AUTHOR:Herbert".toList).requestMessage = [])) :=
  ⟨by decide, parseRequest_key_value_rest "TITLE:Dune,AUTHOR:Herbert".toList (by decide)⟩

/-- C13: on the empty buffer `parseRequest` returns the empty KEY and the
empty VALUE and leaves the buffer empty, and so does every one of `n`
successive calls. -/
theorem parseRequest_empty_buffer (n : Nat) :
    parseRequest [] = { requestMessage := [], method := [], value := [] } ∧
    parseRepeatedly n [] = (List.replicate n ([], []), []) :=
  ⟨parseRequest_nil, parseRepeatedly_nil n⟩

/-! ## The dispatch of decipherRequest -/

theorem parseRequest_rest_le (buffer : CStr) :
    (parseRequest buffer).requestMessage.length ≤ buffer.length := by
  by_cases h : buffer = []
  · subst h
    simp [parseRequest_nil]
  · rw [parseRequest_of_ne_nil buffer h]
    simp only [List.length_drop]
    omega

theorem parseRequestInto_fits (m v : Nat) (request : CStr)
    (hm : (parseRequest request).method.length < m)
    (hv : (parseRequest request).value.length < v)
    (hr : request.length < 300) :
    parseRequestInto m v request = some (parseRequest request) := by
  have hle := parseRequest_rest_le request
  simp only [parseRequestInto]
  rw [if_pos ⟨hm, hv, by omega⟩]

theorem parseRequestInto_long_key (m v : Nat) (request : CStr)
    (hm : m ≤ (parseRequest request).method.length) :
    parseRequestInto m v request = none := by
  simp only [parseRequestInto]
  rw [if_neg (fun h => by omega)]

theorem parseRequestInto_long_value (m v : Nat) (request : CStr)
    (hv : v ≤ (parseRequest request).value.length) :
    parseRequestInto m v request = none := by
  simp only [parseRequestInto]
  rw [if_neg (fun h => by omega)]

theorem decipherBody_submit (cat : Catalog) (request : CStr)
    (hlen : request.length < 300)
    (hkey : (parseRequest request).method.length < 15)
    (h : (parseRequest request).value = "SUBMIT".toList)
    (hk1 : (nextPair (parseRequest request)).method.length < 15)
    (ht : (nextPair (parseRequest request)).value.length < 100)
    (hk2 : (nextPair (nextPair (parseRequest request))).method.length < 15)
    (ha : (nextPair (nextPair (parseRequest request))).value.length < 50)
    (hk3 : (nextPair (nextPair (nextPair (parseRequest request)))).method.length < 15)
    (hl : (nextPair (nextPair (nextPair (parseRequest request)))).value.length < 50) :
    decipherBody cat request =
      { toOutcome := submitBook cat
          (nextPair (parseRequest request)).value
          (nextPair (nextPair (parseRequest request))).value
          (nextPair (nextPair (nextPair (parseRequest request)))).value,
        steps := [Step.parse, Step.parse, Step.parse, Step.parse, Step.catalogCall] } := by
  have h0 := parseRequest_rest_le request
  have h1 := parseRequest_rest_le (parseRequest request).requestMessage
  have h2 := parseRequest_rest_le (parseRequest (parseRequest request).requestMessage).requestMessage
  simp only [nextPair] at hk1 ht hk2 ha hk3 hl ⊢
  have hv : (parseRequest request).value.length < 15 := by rw [h]; decide
  simp only [decipherBody, parseRequestInto_fits 15 15 request hkey hv hlen, h, if_true,
    parseRequestInto_fits 15 100 _ hk1 ht (by omega),
    parseRequestInto_fits 15 50 _ hk2 ha (by omega),
    parseRequestInto_fits 15 50 _ hk3 hl (by omega)]

theorem decipherBody_invalid (cat : Catalog) (request : CStr)
    (hlen : request.length < 300)
    (hkey : (parseRequest request).method.length < 15)
    (hvalue : (parseRequest request).value.length < 15)
    (h1 : (parseRequest request).value ≠ "SUBMIT".toList)
    (h2 : (parseRequest request).value ≠ "GET".toList)
    (h3 : (parseRequest request).value ≠ "REMOVE".toList) :
    decipherBody cat request =
      { catalog := cat, responses := [sendServerResponse invalidTypeResponse 61],
        fault := none, steps := [Step.parse, Step.send] } := by
  simp only [decipherBody, parseRequestInto_fits 15 15 request hkey hvalue hlen, if_neg h1,
    if_neg h2, if_neg h3]

theorem decipherRequest_free (held : Nat) (cat : Catalog) (request : CStr) :
    decipherRequest (held + 1) cat request =
      some (if (decipherBody cat request).fault = none then held + 1 else held,
        (decipherBody cat request).toOutcome) := by
  simp only [decipherRequest]
  split <;> rfl

theorem isBadRequest_invalidType :
    isBadRequest (sendServerResponse invalidTypeResponse 61) = true := by decide

theorem isBadRequest_submitted (t a l : CStr) :
    isBadRequest (submittedResponse t a l) = false := by
  simp [isBadRequest, submittedResponse]

theorem submitBook_responses_mem (head : Catalog) (t a l r : CStr)
    (hr : r ∈ (submitBook head t a l).responses) :
    r = duplicateResponse ∨ r = submittedResponse t a l := by
  cases head with
  | nil =>
    simp only [submitBook, sendServerResponse_strlen, List.mem_singleton] at hr
    exact Or.inr hr
  | cons b rest =>
    simp only [submitBook, sendServerResponse_strlen] at hr
    split at hr
    · simp only [List.mem_append, List.mem_singleton] at hr
      exact hr
    · simp only [List.nil_append, List.mem_singleton] at hr
      exact Or.inr hr

theorem removeBook_responses_mem (head : Catalog) (t a l r : CStr)
    (hr : r ∈ (removeBook head t a l).responses) :
    r = removedResponse t a l ∨ r = removeEmptyResponse ∨ r = removeMissingResponse := by
  unfold removeBook at hr
  simp only [sendServerResponse_strlen] at hr
  repeat' split at hr
  all_goals simp at hr
  all_goals simp [hr]

theorem cString_of_not_mem (line : List Char) (h : Char.ofNat 0 ∉ line) :
    cString line = line := by
  unfold cString
  rw [List.takeWhile_eq_self_iff]
  intro c hc
  have : c ≠ Char.ofNat 0 := fun e => h (e ▸ hc)
  simpa using this

theorem launchClientLoopTurn_line (held : Nat) (cat : Catalog) (line : CStr)
    (hnul : Char.ofNat 0 ∉ line) (hlen : line.length < 250) :
    launchClientLoopTurn (held + 1) cat (ReadResult.received (line ++ ['\n'])) =
      { mutex := if (decipherBody cat line).fault = none then held + 1 else held,
        bookCatalog := (decipherBody cat line).catalog,
        responses := (decipherBody cat line).responses,
        status :=
          match (decipherBody cat line).fault with
          | none => LoopStatus.running
          | some fault => LoopStatus.crashed fault } := by
  have ht : (line ++ ['\n']).take 250 = line ++ ['\n'] :=
    List.take_of_length_le (by simp; omega)
  have h0 : ¬ (line ++ ['\n']).length = 0 := by simp
  have h1 : (line ++ ['\n']).getLast? = some '\n' := by simp
  have h2 : (line ++ ['\n']).dropLast = line := by simp
  simp only [launchClientLoopTurn, ht, if_neg h0, h1, if_true, h2,
    cString_of_not_mem line hnul, decipherRequest_free]

theorem decipherBody_key (cat : Catalog) (key value : CStr) (fields : List (CStr × CStr))
    (hkey : ':' ∉ key) (hvalue : ',' ∉ value) (hshort : key.length < 15) :
    decipherBody cat (joinPairs ((key, value) :: fields)) =
      decipherBody cat (joinPairs (("METHOD".toList, value) :: fields)) := by
  have hm : ':' ∉ "METHOD".toList := by decide
  have hml : "METHOD".toList.length < 15 := by decide
  have e1 : parseRequestInto 15 15 (joinPairs ((key, value) :: fields)) =
      if value.length < 15 ∧ (joinPairs fields).length < 300 then
        some { requestMessage := joinPairs fields, method := key, value := value }
      else none := by
    simp only [parseRequestInto, parseRequest_joinPairs key value fields hkey hvalue, hshort,
      true_and]
  have e2 : parseRequestInto 15 15 (joinPairs (("METHOD".toList, value) :: fields)) =
      if value.length < 15 ∧ (joinPairs fields).length < 300 then
        some { requestMessage := joinPairs fields, method := "METHOD".toList, value := value }
      else none := by
    simp only [parseRequestInto, parseRequest_joinPairs "METHOD".toList value fields hm hvalue,
      hml, true_and]
  unfold decipherBody
  rw [e1, e2]
  by_cases hc : value.length < 15 ∧ (joinPairs fields).length < 300
  · simp only [if_pos hc]
  · simp only [if_neg hc]

/-- C14 as stated fails on the line `TITLE:SUBMIT,TITLE:Dune,AUTHOR:Herbert,
LOCATION:Shelf3`: the key of its first pair is TITLE, not METHOD, and
`decipherRequest` still runs `submitBook`, which stores the record and
answers SUBMITTED; no BAD REQUEST response is sent. -/
theorem decipherRequest_first_key_unchecked :
    (parseRequest "TITLE:SUBMIT,TITLE:Dune,AUTHOR:Herbert,LOCATION:Shelf3".toList).method
      = "TITLE".toList ∧
    "TITLE".toList ≠ "METHOD".toList ∧
    decipherRequest 1 [] "TITLE:SUBMIT,TITLE:Dune,AUTHOR:Herbert,LOCATION:Shelf3".toList =
      some (1, { catalog := [dune],
                 responses := [submittedResponse dune.title dune.author dune.location],
                 fault := none }) ∧
    isBadRequest (submittedResponse dune.title dune.author dune.location) = false := by
  decide

/-- C14 as amended, for a handler that passes `sem_wait` and a request that
overruns no array of `decipherRequest`: the call looks at the value of the
first pair only.  A line whose first pair has a key shorter than 15 bytes is
handled exactly as the same line with the key METHOD; and every request of
less than 300 bytes whose first key and first value are shorter than 15
bytes and whose first value is none of SUBMIT, GET, REMOVE is answered with
one BAD REQUEST response while the catalog stays as it is and the semaphore
count is restored. -/
theorem decipherRequest_first_value_decides (held : Nat) (cat : Catalog)
    (key value : CStr) (fields : List (CStr × CStr))
    (hkey : ':' ∉ key) (hvalue : ',' ∉ value) (hshort : key.length < 15)
    (hfits : (decipherBody cat (joinPairs (("METHOD".toList, value) :: fields))).fault
      ≠ some Fault.bufferOverflow) :
    (decipherBody cat (joinPairs ((key, value) :: fields))).fault
      ≠ some Fault.bufferOverflow ∧
    decipherRequest (held + 1) cat (joinPairs ((key, value) :: fields)) =
      decipherRequest (held + 1) cat (joinPairs (("METHOD".toList, value) :: fields)) ∧
    (∀ request : CStr, request.length < 300 →
      (parseRequest request).method.length < 15 →
      (parseRequest request).value.length < 15 →
      (parseRequest request).value ≠ "SUBMIT".toList →
      (parseRequest request).value ≠ "GET".toList →
      (parseRequest request).value ≠ "REMOVE".toList →
      decipherRequest (held + 1) cat request =
        some (held + 1,
          { catalog := cat, responses := [sendServerResponse invalidTypeResponse 61],
            fault := none })) ∧
    isBadRequest (sendServerResponse invalidTypeResponse 61) = true := by
  have hb := decipherBody_key cat key value fields hkey hvalue hshort
  refine ⟨by rw [hb]; exact hfits, ?_, ?_, isBadRequest_invalidType⟩
  · rw [decipherRequest_free, decipherRequest_free, hb]
  · intro request hlen hk hv h1 h2 h3
    rw [decipherRequest_free, decipherBody_invalid cat request hlen hk hv h1 h2 h3]
    rfl

/-- C14 as amended, at the key `KIND`, the value `REMOVE` and the Dune
fields on the catalog `[emma, dune]`. -/
theorem decipherRequest_first_value_decides_witness :
    ':' ∉ "KIND".toList ∧ ',' ∉ "REMOVE".toList ∧ "KIND".toList.length < 15 ∧
    (decipherBody [emma, dune]
        (joinPairs (("METHOD".toList, "REMOVE".toList) ::
          [("TITLE".toList, dune.title), ("AUTHOR".toList, dune.author),
           ("LOCATION".toList, dune.location)]))).fault ≠ some Fault.bufferOverflow ∧
    decipherRequest (0 + 1) [emma, dune]
        (joinPairs (("KIND".toList, "REMOVE".toList) ::
          [("TITLE".toList, dune.title), ("AUTHOR".toList, dune.author),
           ("LOCATION".toList, dune.location)])) =
      decipherRequest (0 + 1) [emma, dune]
        (joinPairs (("METHOD".toList, "REMOVE".toList) ::
          [("TITLE".toList, dune.title), ("AUTHOR".toList, dune.author),
           ("LOCATION".toList, dune.location)])) ∧
    decipherRequest (0 + 1) [emma, dune]
        (joinPairs (("KIND".toList, "REMOVE".toList) ::
          [("TITLE".toList, dune.title), ("AUTHOR".toList, dune.author),
           ("LOCATION".toList, dune.location)])) =
      some (0 + 1, { catalog := [emma],
                     responses := [removedResponse dune.title dune.author dune.location],
                     fault := none }) :=
  ⟨by decide, by decide, by decide, by decide,
   (decipherRequest_first_value_decides 0 [emma, dune] "KIND".toList "REMOVE".toList
      [("TITLE".toList, dune.title), ("AUTHOR".toList, dune.author),
       ("LOCATION".toList, dune.location)] (by decide) (by decide) (by decide)
       (by decide)).2.1,
   by decide⟩

theorem isBadRequest_duplicate : isBadRequest duplicateResponse = false := by decide

theorem joinPairs_nil : joinPairs [] = [] := rfl

theorem submitBook_no_bad_request (head : Catalog) (t a l r : CStr)
    (hr : r ∈ (submitBook head t a l).responses) : isBadRequest r = false := by
  rcases submitBook_responses_mem head t a l r hr with h | h
  · rw [h]; exact isBadRequest_duplicate
  · rw [h]; exact isBadRequest_submitted t a l

theorem decipherBody_submit_one_field (cat : Catalog) (k1 title : CStr)
    (h1 : ':' ∉ k1) (ht : ',' ∉ title) (hs1 : k1.length < 15) (hst : title.length < 100) :
    decipherBody cat (joinPairs [("METHOD".toList, "SUBMIT".toList), (k1, title)]) =
      { toOutcome := submitBook cat title [] [],
        steps := [Step.parse, Step.parse, Step.parse, Step.parse, Step.catalogCall] } := by
  have hm : ':' ∉ "METHOD".toList := by decide
  have hml : "METHOD".toList.length < 15 := by decide
  have hs : ',' ∉ "SUBMIT".toList := by decide
  have hz15 : ([] : CStr).length < 15 := by decide
  have hz50 : ([] : CStr).length < 50 := by decide
  have e0 := parseRequest_joinPairs "METHOD".toList "SUBMIT".toList [(k1, title)] hm hs
  have e1 := parseRequest_joinPairs k1 title [] h1 ht
  have hlen : (joinPairs [("METHOD".toList, "SUBMIT".toList), (k1, title)]).length < 300 := by
    simp [joinPairs]; omega
  rw [decipherBody_submit cat _ hlen (by rw [e0]; exact hml) (by rw [e0])
    (by simp only [nextPair, e0, e1]; exact hs1) (by simp only [nextPair, e0, e1]; exact hst)
    (by simp only [nextPair, e0, e1, joinPairs_nil, parseRequest_nil]; exact hz15)
    (by simp only [nextPair, e0, e1, joinPairs_nil, parseRequest_nil]; exact hz50)
    (by simp only [nextPair, e0, e1, joinPairs_nil, parseRequest_nil]; exact hz15)
    (by simp only [nextPair, e0, e1, joinPairs_nil, parseRequest_nil]; exact hz50)]
  simp only [nextPair, e0, e1, joinPairs_nil, parseRequest_nil]

theorem decipherBody_submit_two_fields (cat : Catalog) (k1 k2 title author : CStr)
    (h1 : ':' ∉ k1) (h2 : ':' ∉ k2) (ht : ',' ∉ title) (ha : ',' ∉ author)
    (hs1 : k1.length < 15) (hs2 : k2.length < 15)
    (hst : title.length < 100) (hsa : author.length < 50) :
    decipherBody cat
        (joinPairs [("METHOD".toList, "SUBMIT".toList), (k1, title), (k2, author)]) =
      { toOutcome := submitBook cat title author [],
        steps := [Step.parse, Step.parse, Step.parse, Step.parse, Step.catalogCall] } := by
  have hm : ':' ∉ "METHOD".toList := by decide
  have hml : "METHOD".toList.length < 15 := by decide
  have hs : ',' ∉ "SUBMIT".toList := by decide
  have hz15 : ([] : CStr).length < 15 := by decide
  have hz50 : ([] : CStr).length < 50 := by decide
  have e0 := parseRequest_joinPairs "METHOD".toList "SUBMIT".toList
    [(k1, title), (k2, author)] hm hs
  have e1 := parseRequest_joinPairs k1 title [(k2, author)] h1 ht
  have e2 := parseRequest_joinPairs k2 author [] h2 ha
  have hlen : (joinPairs [("METHOD".toList, "SUBMIT".toList), (k1, title),
      (k2, author)]).length < 300 := by
    simp [joinPairs]; omega
  rw [decipherBody_submit cat _ hlen (by rw [e0]; exact hml) (by rw [e0])
    (by simp only [nextPair, e0, e1]; exact hs1) (by simp only [nextPair, e0, e1]; exact hst)
    (by simp only [nextPair, e0, e1, e2]; exact hs2)
    (by simp only [nextPair, e0, e1, e2]; exact hsa)
    (by simp only [nextPair, e0, e1, e2, joinPairs_nil, parseRequest_nil]; exact hz15)
    (by simp only [nextPair, e0, e1, e2, joinPairs_nil, parseRequest_nil]; exact hz50)]
  simp only [nextPair, e0, e1, e2, joinPairs_nil, parseRequest_nil]

/-- C18 as stated fails on its own witness: the line `METHOD:SUBMIT,TITLE:Dune`
received on the empty catalog is answered with one SUBMITTED response, which
is not a BAD REQUEST response, and the record (Dune, empty author, empty
location) is stored; the handler goes on to the next `read`. -/
theorem submit_title_only_is_submitted :
    launchClientLoopTurn 1 [] (ReadResult.received "METHOD:SUBMIT,TITLE:Dune\n".toList) =
      { mutex := 1,
        bookCatalog := [{ title := "Dune".toList, author := [], location := [] }],
        responses := [submittedResponse "Dune".toList [] []],
        status := LoopStatus.running } ∧
    isSubmitted (submittedResponse "Dune".toList [] []) = true ∧
    isBadRequest (submittedResponse "Dune".toList [] []) = false := by
  decide

/-- C18 as amended, for a handler that passes `sem_wait`: a SUBMIT line with
the title pair only, or with the title and the author pair only, whose keys
are shorter than 15 bytes, whose title is shorter than 100 bytes and whose
author is shorter than 50 bytes, does not make the handler fail.  The values
that are not there are read as empty strings and `submitBook` runs with
them: the responses of the turn are those of `submitBook`, none of them is a
BAD REQUEST response, the last one is the SUBMITTED response and the catalog
ends with the record; the handler goes on to the next `read`. -/
theorem submit_with_missing_fields (held : Nat) (cat : Catalog)
    (k1 k2 title author : CStr)
    (hk1 : ':' ∉ k1) (hk2 : ':' ∉ k2) (ht : ',' ∉ title) (ha : ',' ∉ author)
    (hz1 : Char.ofNat 0 ∉ k1) (hz2 : Char.ofNat 0 ∉ k2)
    (hzt : Char.ofNat 0 ∉ title) (hza : Char.ofNat 0 ∉ author)
    (hs1 : k1.length < 15) (hs2 : k2.length < 15)
    (hst : title.length < 100) (hsa : author.length < 50) :
    launchClientLoopTurn (held + 1) cat (ReadResult.received
        (joinPairs [("METHOD".toList, "SUBMIT".toList), (k1, title)] ++ ['\n'])) =
      { mutex := held + 1,
        bookCatalog := (submitBook cat title [] []).catalog,
        responses := (submitBook cat title [] []).responses,
        status := LoopStatus.running } ∧
    launchClientLoopTurn (held + 1) cat (ReadResult.received
        (joinPairs [("METHOD".toList, "SUBMIT".toList), (k1, title), (k2, author)] ++ ['\n'])) =
      { mutex := held + 1,
        bookCatalog := (submitBook cat title author []).catalog,
        responses := (submitBook cat title author []).responses,
        status := LoopStatus.running } ∧
    (∀ r ∈ (submitBook cat title [] []).responses, isBadRequest r = false) ∧
    (∀ r ∈ (submitBook cat title author []).responses, isBadRequest r = false) ∧
    (∃ kept before,
      (submitBook cat title [] []).catalog
        = kept ++ [{ title := title, author := [], location := [] }] ∧
      (submitBook cat title [] []).responses = before ++ [submittedResponse title [] []]) ∧
    (∃ kept before,
      (submitBook cat title author []).catalog
        = kept ++ [{ title := title, author := author, location := [] }] ∧
      (submitBook cat title author []).responses
        = before ++ [submittedResponse title author []]) := by
  have hn1 : Char.ofNat 0 ∉ joinPairs [("METHOD".toList, "SUBMIT".toList), (k1, title)] := by
    simp only [joinPairs, List.mem_append, List.mem_cons, not_or]
    exact ⟨⟨by decide, by decide, by decide⟩, by decide, hz1, by decide, hzt⟩
  have hn2 : Char.ofNat 0 ∉
      joinPairs [("METHOD".toList, "SUBMIT".toList), (k1, title), (k2, author)] := by
    simp only [joinPairs, List.mem_append, List.mem_cons, not_or]
    exact ⟨⟨by decide, by decide, by decide⟩, by decide,
      ⟨⟨hz1, by decide, hzt⟩, by decide, hz2, by decide, hza⟩⟩
  have hl1 : (joinPairs [("METHOD".toList, "SUBMIT".toList), (k1, title)]).length < 250 := by
    simp [joinPairs]; omega
  have hl2 : (joinPairs [("METHOD".toList, "SUBMIT".toList), (k1, title),
      (k2, author)]).length < 250 := by
    simp [joinPairs]; omega
  have hz100 : ([] : CStr).length < 100 := by decide
  have hf1 : (submitBook cat title [] []).fault = none := by
    rw [submitBook_fault]; exact nodeOverrun_of_short title [] [] hst hz100 hz100
  have hf2 : (submitBook cat title author []).fault = none := by
    rw [submitBook_fault]; exact nodeOverrun_of_short title author [] hst (by omega) hz100
  refine ⟨?_, ?_, fun r hr => submitBook_no_bad_request cat title [] [] r hr,
    fun r hr => submitBook_no_bad_request cat title author [] r hr, ?_, ?_⟩
  · rw [launchClientLoopTurn_line held cat _ hn1 hl1,
      decipherBody_submit_one_field cat k1 title hk1 ht hs1 hst]
    simp only [hf1, if_true]
  · rw [launchClientLoopTurn_line held cat _ hn2 hl2,
      decipherBody_submit_two_fields cat k1 k2 title author hk1 hk2 ht ha hs1 hs2 hst hsa]
    simp only [hf2, if_true]
  · obtain ⟨kept, hk⟩ := submitBook_catalog_last cat title [] []
    obtain ⟨before, hb⟩ := submitBook_responses_last cat title [] []
    rw [storedBook_of_short title [] [] hst hz100] at hk
    exact ⟨kept, before, hk, hb⟩
  · obtain ⟨kept, hk⟩ := submitBook_catalog_last cat title author []
    obtain ⟨before, hb⟩ := submitBook_responses_last cat title author []
    rw [storedBook_of_short title author [] hst (by omega)] at hk
    exact ⟨kept, before, hk, hb⟩

/-- C18 as amended, at the lines `METHOD:SUBMIT,TITLE:Dune` and
`METHOD:SUBMIT,TITLE:Dune,AUTHOR:Herbert` on the catalog `[emma]`. -/
theorem submit_with_missing_fields_witness :
    (':' ∉ "TITLE".toList ∧ ':' ∉ "AUTHOR".toList ∧
      ',' ∉ "Dune".toList ∧ ',' ∉ "Herbert".toList) ∧
    (Char.ofNat 0 ∉ "TITLE".toList ∧ Char.ofNat 0 ∉ "AUTHOR".toList ∧
      Char.ofNat 0 ∉ "Dune".toList ∧ Char.ofNat 0 ∉ "Herbert".toList) ∧
    ("TITLE".toList.length < 15 ∧ "AUTHOR".toList.length < 15 ∧
      "Dune".toList.length < 100 ∧ "Herbert".toList.length < 50) ∧
    launchClientLoopTurn (0 + 1) [emma] (ReadResult.received
        (joinPairs [("METHOD".toList, "SUBMIT".toList), ("TITLE".toList, "Dune".toList)]
          ++ ['\n'])) =
      { mutex := 0 + 1,
        bookCatalog := (submitBook [emma] "Dune".toList [] []).catalog,
        responses := (submitBook [emma] "Dune".toList [] []).responses,
        status := LoopStatus.running } ∧
    launchClientLoopTurn (0 + 1) [emma] (ReadResult.received
        (joinPairs [("METHOD".toList, "SUBMIT".toList), ("TITLE".toList, "Dune".toList),
          ("AUTHOR".toList, "Herbert".toList)] ++ ['\n'])) =
      { mutex := 0 + 1,
        bookCatalog := (submitBook [emma] "Dune".toList "Herbert".toList []).catalog,
        responses := (submitBook [emma] "Dune".toList "Herbert".toList []).responses,
        status := LoopStatus.running } :=
  ⟨by decide, by decide, by decide,
   (submit_with_missing_fields 0 [emma] "TITLE".toList "AUTHOR".toList "Dune".toList
      "Herbert".toList (by decide) (by decide) (by decide) (by decide)
      (by decide) (by decide) (by decide) (by decide)
      (by decide) (by decide) (by decide) (by decide)).1,
   (submit_with_missing_fields 0 [emma] "TITLE".toList "AUTHOR".toList "Dune".toList
      "Herbert".toList (by decide) (by decide) (by decide) (by decide)
      (by decide) (by decide) (by decide) (by decide)
      (by decide) (by decide) (by decide) (by decide)).2.1⟩

/-- C19, evaluated at the SUBMIT line for the Dune triple received on the
catalog `[dune, emma]`: the handler writes two responses for this one
request, DUPLICATE and then SUBMITTED. -/
theorem submit_request_two_responses :
    launchClientLoopTurn 1 [dune, emma] (ReadResult.received
        "METHOD:SUBMIT,TITLE:Dune,AUTHOR:Herbert,LOCATION:Shelf3\n".toList) =
      { mutex := 1, bookCatalog := [dune, dune],
        responses := [duplicateResponse,
          submittedResponse dune.title dune.author dune.location],
        status := LoopStatus.running } ∧
    (launchClientLoopTurn 1 [dune, emma] (ReadResult.received
        "METHOD:SUBMIT,TITLE:Dune,AUTHOR:Herbert,LOCATION:Shelf3\n".toList)).responses.length
      = 2 := by
  decide

/-- C20: every SUBMITTED response of `submitBook` is the status line followed
by the lines `TITLE:`, `AUTHOR:`, `LOCATION:` with the title, the author and
the location of the call, and `submitBook` sends such a response on every
call; every REMOVED response of `removeBook` is the status line followed by
the same three lines with the title, the author and the location of the
call. -/
theorem submitted_and_removed_echo (head : Catalog) (title author location : CStr) :
    (∀ r ∈ (submitBook head title author location).responses, isSubmitted r = true →
      r = "201: SUBMITTED\n".toList ++ echoLines title author location) ∧
    (∃ r ∈ (submitBook head title author location).responses, isSubmitted r = true) ∧
    (∀ r ∈ (removeBook head title author location).responses, isRemoved r = true →
      r = "203:REMOVED\n".toList ++ echoLines title author location) := by
  refine ⟨?_, ?_, ?_⟩
  · intro r hr hs
    rcases submitBook_responses_mem head title author location r hr with h | h
    · rw [h, isSubmitted_duplicate] at hs
      exact absurd hs (by decide)
    · rw [h]
      simp [submittedResponse, echoLines]
  · obtain ⟨before, hb⟩ := submitBook_responses_last head title author location
    exact ⟨submittedResponse title author location, by rw [hb]; simp,
      isSubmitted_submitted title author location⟩
  · intro r hr hs
    rcases removeBook_responses_mem head title author location r hr with h | h | h
    · rw [h]
      simp [removedResponse, echoLines]
    · rw [h] at hs
      exact absurd hs (by decide)
    · rw [h] at hs
      exact absurd hs (by decide)

/-- C20 at the Dune triple: submitted to `[emma]` and removed from
`[emma, dune]`. -/
theorem submitted_and_removed_echo_witness :
    (submittedResponse dune.title dune.author dune.location
        ∈ (submitBook [emma] dune.title dune.author dune.location).responses ∧
      submittedResponse dune.title dune.author dune.location
        = "201: SUBMITTED\nTITLE:Dune\nAUTHOR:Herbert\nLOCATION:Shelf3\n".toList) ∧
    (removedResponse dune.title dune.author dune.location
        ∈ (removeBook [emma, dune] dune.title dune.author dune.location).responses ∧
      removedResponse dune.title dune.author dune.location
        = "203:REMOVED\nTITLE:Dune\nAUTHOR:Herbert\nLOCATION:Shelf3\n".toList) :=
  ⟨⟨by decide,
    (submitted_and_removed_echo [emma] dune.title dune.author dune.location).1
      (submittedResponse dune.title dune.author dune.location) (by decide) (by decide)⟩,
   ⟨by decide,
    (submitted_and_removed_echo [emma, dune] dune.title dune.author dune.location).2.2
      (removedResponse dune.title dune.author dune.location) (by decide) (by decide)⟩⟩

/-! ## More on submitBook, the transport errors and the shutdown -/

theorem submitScan_flag_of_mem (t a l : CStr) (head : Catalog) (hne : head ≠ [])
    (h : ({ title := t, author := a, location := l } : Book) ∈ head.dropLast) :
    (submitScan t a l head 0).2 = true := by
  obtain ⟨pre, post, hsplit, hpre⟩ := List.eq_append_cons_of_mem h
  have hhead : head = pre ++ { title := t, author := a, location := l }
      :: (post ++ [head.getLast hne]) := by
    conv_lhs => rw [← List.dropLast_append_getLast hne, hsplit]
    simp
  rw [hhead, submitScan_match t a l pre (post ++ [head.getLast hne]) 0 (by simp)
    (fun b hb heq => hpre (heq ▸ hb))]

theorem submitBook_duplicate_iff_mem (head : Catalog) (t a l : CStr) (hne : head ≠ []) :
    (∃ r ∈ (submitBook head t a l).responses, isDuplicate r = true) ↔
      ({ title := t, author := a, location := l } : Book) ∈ head.dropLast := by
  constructor
  · rintro ⟨r, hr, hd⟩
    by_contra hnot
    rw [submitBook_append head t a l (fun b hb heq => hnot (heq ▸ hb))] at hr
    simp only [List.mem_singleton] at hr
    rw [hr, isDuplicate_submitted] at hd
    exact absurd hd (by decide)
  · intro h
    have hflag := submitScan_flag_of_mem t a l head hne h
    cases head with
    | nil => exact absurd rfl hne
    | cons b rest =>
      refine ⟨duplicateResponse, ?_, isDuplicate_duplicate⟩
      simp only [submitBook, hflag, sendServerResponse_strlen]
      simp

theorem removeAllBooksLoop_freed :
    ∀ (temp : Book) (rest : List Book),
      (removeAllBooksLoop temp rest).1 ++ [(removeAllBooksLoop temp rest).2] = temp :: rest
  | temp, [] => rfl
  | temp, next :: rest => by
    simp only [removeAllBooksLoop, List.cons_append, removeAllBooksLoop_freed next rest]

theorem removeAllBooks_eq (head : Catalog) :
    removeAllBooks head = { catalog := [], freed := head } := by
  cases head with
  | nil => rfl
  | cons temp rest => simp only [removeAllBooks, removeAllBooksLoop_freed]

/-- C23, evaluated at the catalog `[emma, dune, ulysses]` and the Dune
triple: the duplicate is found at the second record, DUPLICATE is sent, and
the new record is linked behind the record found, so the catalog becomes
`[emma, dune, dune]`: the Ulysses record is no longer in it, and the result is
not the previous catalog followed by the new record. -/
theorem submitBook_duplicate_cuts_tail :
    submitBook [emma, dune, ulysses] dune.title dune.author dune.location =
      { catalog := [emma, dune, dune],
        responses := [duplicateResponse,
          submittedResponse dune.title dune.author dune.location],
        fault := none } ∧
    isDuplicate duplicateResponse = true ∧
    (submitBook [emma, dune, ulysses] dune.title dune.author dune.location).catalog
      ≠ [emma, dune, ulysses] ++ [dune] := by
  decide

/-- C24 as stated fails on a failed `read` and on a failed `write`: the turn
of `launchClientLoop` for a negative result of `read` ends with `exit(1)`,
and so does `sendServerResponse` when `write` returns a negative result. -/
theorem transport_error_exits_process :
    (launchClientLoopTurn 1 [dune] ReadResult.failed).status = LoopStatus.exited ∧
    sendServerResponseStatus (-1) = LoopStatus.exited ∧
    LoopStatus.exited ≠ LoopStatus.left := by
  decide

/-- C24 as amended: a failed `read` in `launchClientLoop` and a failed
`write` in `sendServerResponse` end the server process through `exit(1)`;
the handler takes no further turn, whatever is still to be read.  A
disconnect (`read` returns 0) only makes the handler leave its loop: no
response is written and the semaphore count and the catalog stay as they
are. -/
theorem transport_error_or_disconnect (mutex : Nat) (cat : Catalog)
    (later : List ReadResult) (sentBytes : Int) (hfailed : sentBytes < 0) :
    sendServerResponseStatus sentBytes = LoopStatus.exited ∧
    launchClientLoop mutex cat (ReadResult.failed :: later) =
      [{ mutex := mutex, bookCatalog := cat, responses := [],
         status := LoopStatus.exited }] ∧
    launchClientLoop mutex cat (ReadResult.disconnected :: later) =
      [{ mutex := mutex, bookCatalog := cat, responses := [],
         status := LoopStatus.left }] := by
  refine ⟨?_, ?_, ?_⟩
  · simp [sendServerResponseStatus, hfailed]
  · simp [launchClientLoop, launchClientLoopTurn]
  · simp [launchClientLoop, launchClientLoopTurn]

/-- C24 as amended, at the catalog `[dune]`, a further request waiting to be
read and the result -1 of `write`. -/
theorem transport_error_or_disconnect_witness :
    (-1 : Int) < 0 ∧
    sendServerResponseStatus (-1) = LoopStatus.exited ∧
    launchClientLoop 1 [dune]
        (ReadResult.failed :: [ReadResult.received "METHOD:GET,AUTHOR:Herbert\n".toList]) =
      [{ mutex := 1, bookCatalog := [dune], responses := [],
         status := LoopStatus.exited }] ∧
    launchClientLoop 1 [dune]
        (ReadResult.disconnected ::
          [ReadResult.received "METHOD:GET,AUTHOR:Herbert\n".toList]) =
      [{ mutex := 1, bookCatalog := [dune], responses := [],
         status := LoopStatus.left }] :=
  ⟨by decide,
   transport_error_or_disconnect 1 [dune]
     [ReadResult.received "METHOD:GET,AUTHOR:Herbert\n".toList] (-1) (by decide)⟩

/-- C29: for every catalog `removeAllBooks` leaves the empty catalog (the
head pointer is NULL) and has passed every node to `free` exactly once, in
catalog order; `handleServerClose` closes the listening socket, runs
`removeAllBooks` on the catalog and then calls `exit(0)`. -/
theorem removeAllBooks_clears (head : Catalog) :
    (removeAllBooks head).catalog = [] ∧
    (removeAllBooks head).freed = head ∧
    handleServerClose head =
      { listenerClosed := true, bookCatalog := [], freed := head, exitStatus := 0 } := by
  simp [handleServerClose, removeAllBooks_eq]

/-- C30: on a non-empty catalog `submitBook` sends a DUPLICATE response if
and only if a record other than the last one equals the submitted triple; on
a catalog of one record it never sends one, whatever that record is. -/
theorem submitBook_duplicate_iff (head : Catalog) (title author location : CStr)
    (hne : head ≠ []) :
    ((∃ r ∈ (submitBook head title author location).responses, isDuplicate r = true) ↔
      ∃ b ∈ head.dropLast,
        b.title = title ∧ b.author = author ∧ b.location = location) ∧
    (∀ only : Book, ∀ r ∈ (submitBook [only] title author location).responses,
      isDuplicate r = false) := by
  constructor
  · rw [submitBook_duplicate_iff_mem head title author location hne]
    constructor
    · intro h
      exact ⟨_, h, rfl, rfl, rfl⟩
    · rintro ⟨b, hb, hm⟩
      rw [← (Book.eq_mk_iff b title author location).2 hm]
      exact hb
  · intro only r hr
    simp only [submitBook, submitScan, sendServerResponse_strlen] at hr
    simp at hr
    rw [hr]
    exact isDuplicate_submitted title author location

/-- C30 at the catalog `[dune, emma]` and the Dune triple. -/
theorem submitBook_duplicate_iff_witness :
    [dune, emma] ≠ [] ∧
    (((∃ r ∈ (submitBook [dune, emma] dune.title dune.author dune.location).responses,
        isDuplicate r = true) ↔
       ∃ b ∈ [dune, emma].dropLast,
        b.title = dune.title ∧ b.author = dune.author ∧ b.location = dune.location) ∧
     (∀ only : Book, ∀ r ∈ (submitBook [only] dune.title dune.author dune.location).responses,
        isDuplicate r = false)) :=
  ⟨by decide,
   submitBook_duplicate_iff [dune, emma] dune.title dune.author dune.location (by decide)⟩

/-! ## The order of the steps of decipherRequest -/

theorem decipherBody_steps (cat : Catalog) (request : CStr) :
    ∃ rest, (decipherBody cat request).steps = Step.parse :: rest ∧
      Step.semWait ∉ rest ∧ Step.semPost ∉ rest ∧ Step.exit ∉ rest := by
  unfold decipherBody
  repeat' split
  all_goals exact ⟨_, rfl, by decide, by decide, by decide⟩

theorem submitBook_responses_ne_nil (head : Catalog) (t a l : CStr) :
    (submitBook head t a l).responses ≠ [] := by
  obtain ⟨before, hb⟩ := submitBook_responses_last head t a l
  rw [hb]
  simp

theorem getBooksByAuthor_responses_ne_nil (head : Catalog) (q : CStr)
    (h : (getBooksByAuthor head q).fault = none) : (getBooksByAuthor head q).responses ≠ [] := by
  rw [getBooksByAuthor_closed] at h ⊢
  split_ifs at h ⊢ <;> simp at h ⊢

theorem getBooksWithTitle_responses_ne_nil (head : Catalog) (q : CStr)
    (h : (getBooksWithTitle head q).fault = none) :
    (getBooksWithTitle head q).responses ≠ [] := by
  rw [getBooksWithTitle_closed] at h ⊢
  split_ifs at h ⊢ <;> simp at h ⊢

theorem getSpecificBook_responses_ne_nil (head : Catalog) (t a : CStr)
    (h : (getSpecificBook head t a).fault = none) :
    (getSpecificBook head t a).responses ≠ [] := by
  rw [getSpecificBook_closed] at h ⊢
  split_ifs at h ⊢ <;> simp at h ⊢

theorem removeBook_responses_ne_nil (head : Catalog) (t a l : CStr)
    (h : (removeBook head t a l).fault = none) : (removeBook head t a l).responses ≠ [] := by
  match head, h with
  | [], _ => simp [removeBook]
  | [temp], _ =>
    simp only [removeBook]
    split_ifs <;> simp
  | x :: y :: rest, h =>
    simp only [removeBook] at h ⊢
    cases hs : removeScan t a l (x :: y :: rest) 0 with
    | none => simp
    | some it =>
      rw [hs] at h
      simp only at h ⊢
      split_ifs at h ⊢ <;> simp at h ⊢

theorem decipherBody_responses_ne_nil (cat : Catalog) (request : CStr)
    (h : (decipherBody cat request).fault = none) :
    (decipherBody cat request).responses ≠ [] := by
  revert h
  unfold decipherBody
  repeat' split
  all_goals first
    | (intro _; exact submitBook_responses_ne_nil _ _ _ _)
    | (intro h; exact getBooksByAuthor_responses_ne_nil _ _ h)
    | (intro h; exact getBooksWithTitle_responses_ne_nil _ _ h)
    | (intro h; exact getSpecificBook_responses_ne_nil _ _ _ h)
    | (intro h; exact removeBook_responses_ne_nil _ _ _ _ h)
    | (intro h; simp [overrun] at h; done)
    | (intro _; simp)

/-- C25 as stated fails on a call whose `write` fails: for the request
`METHOD:GET,AUTHOR:Herbert` on the empty catalog the steps are `sem_wait`, two
`parseRequest` calls, the call of `getBooksByAuthor`, and the `exit(1)` of
`sendServerResponse`; the lock that was acquired is not released on this
path. -/
theorem failed_write_keeps_lock :
    decipherRequestSteps false [] "METHOD:GET,AUTHOR:Herbert".toList =
      [Step.semWait, Step.parse, Step.parse, Step.catalogCall, Step.exit] ∧
    (decipherRequestSteps false [] "METHOD:GET,AUTHOR:Herbert".toList).count Step.semPost = 0 ∧
    sendServerResponseStatus (-1) = LoopStatus.exited := by
  decide

/-- C25 as amended: a call of `decipherRequest` starts with `sem_wait`; a
handler that finds the count 0 there does nothing else.  The steps between
are those of the body: the first of them is a `parseRequest` call, and every
`parseRequest` call, every call of a catalog function and every send of the
call come after the one `sem_wait`, with no `sem_post` among them.  On every
path on which the `write` calls succeed and no memory error occurs, the call
runs to its end: `sem_post` is its last step and occurs once, and the count
is what it was before the call.  On every path on which `write` fails, the
call ends with the `exit(1)` of `sendServerResponse` when no memory error
came first and the lock is not released. -/
theorem decipherRequest_lock_discipline (held : Nat) (sent : Bool) (cat : Catalog)
    (request : CStr) :
    decipherRequest 0 cat request = none ∧
    (∃ ending : List Step,
      decipherRequestSteps sent cat request =
        Step.semWait :: (decipherBody cat request).steps ++ ending ∧
      (decipherBody cat request).steps.head? = some Step.parse ∧
      Step.semWait ∉ (decipherBody cat request).steps ∧
      Step.semPost ∉ (decipherBody cat request).steps ∧
      (ending = [Step.semPost] ∨ ending = [Step.exit] ∨ ending = [])) ∧
    (decipherRequestSteps sent cat request).count Step.semWait = 1 ∧
    (sent = true → (decipherBody cat request).fault = none →
      (decipherRequestSteps sent cat request).count Step.semPost = 1 ∧
      (decipherRequestSteps sent cat request).getLast? = some Step.semPost ∧
      decipherRequest (held + 1) cat request
        = some (held + 1, (decipherBody cat request).toOutcome)) ∧
    (sent = false →
      (decipherRequestSteps sent cat request).count Step.semPost = 0 ∧
      ((decipherBody cat request).fault = none →
        (decipherRequestSteps sent cat request).getLast? = some Step.exit)) := by
  obtain ⟨rest, hsteps, hw, hp, _⟩ := decipherBody_steps cat request
  have hw2 : Step.semWait ∉ (decipherBody cat request).steps := by
    rw [hsteps]; simpa using hw
  have hp2 : Step.semPost ∉ (decipherBody cat request).steps := by
    rw [hsteps]; simpa using hp
  refine ⟨rfl, ?_, ?_, ?_, ?_⟩
  · refine ⟨_, rfl, by rw [hsteps]; rfl, hw2, hp2, ?_⟩
    split
    · exact Or.inr (Or.inl rfl)
    · split
      · exact Or.inl rfl
      · exact Or.inr (Or.inr rfl)
  · simp only [decipherRequestSteps, List.count_cons_self, List.count_append,
      List.count_eq_zero_of_not_mem hw2]
    split
    · rfl
    · split <;> rfl
  · intro hsent hf
    have hc : ¬ (sent = false ∧ (decipherBody cat request).responses ≠ []) := by
      rw [hsent]; simp
    simp only [decipherRequestSteps, if_neg hc, if_pos hf]
    refine ⟨?_, ?_, ?_⟩
    · simp [List.count_cons, List.count_append, List.count_eq_zero_of_not_mem hp2]
    · rw [List.getLast?_append]
      rfl
    · rw [decipherRequest_free, if_pos hf]
  · intro hsent
    constructor
    · by_cases hr : (decipherBody cat request).responses = []
      · have hf : ¬ (decipherBody cat request).fault = none :=
          fun hf => decipherBody_responses_ne_nil cat request hf hr
        have hc : ¬ (sent = false ∧ (decipherBody cat request).responses ≠ []) :=
          fun h => h.2 hr
        simp only [decipherRequestSteps, if_neg hc, if_neg hf]
        simp [List.count_cons, List.count_eq_zero_of_not_mem hp2]
      · simp only [decipherRequestSteps, if_pos (And.intro hsent hr)]
        simp [List.count_cons, List.count_append, List.count_eq_zero_of_not_mem hp2]
    · intro hf
      have hr := decipherBody_responses_ne_nil cat request hf
      simp only [decipherRequestSteps, if_pos (And.intro hsent hr)]
      rw [List.getLast?_append]
      rfl

/-- C25 as amended, at the SUBMIT line of the Dune triple on the catalog
`[emma]`, with `write` calls that succeed. -/
theorem decipherRequest_lock_discipline_witness :
    (decipherBody [emma]
      "METHOD:SUBMIT,TITLE:Dune,AUTHOR:Herbert,LOCATION:Shelf3".toList).fault = none ∧
    decipherRequestSteps true [emma]
        "METHOD:SUBMIT,TITLE:Dune,AUTHOR:Herbert,LOCATION:Shelf3".toList =
      [Step.semWait, Step.parse, Step.parse, Step.parse, Step.parse, Step.catalogCall,
       Step.semPost] ∧
    ((decipherRequestSteps true [emma]
        "METHOD:SUBMIT,TITLE:Dune,AUTHOR:Herbert,LOCATION:Shelf3".toList).count Step.semPost = 1 ∧
      (decipherRequestSteps true [emma]
        "METHOD:SUBMIT,TITLE:Dune,AUTHOR:Herbert,LOCATION:Shelf3".toList).getLast?
          = some Step.semPost ∧
      decipherRequest (0 + 1) [emma]
          "METHOD:SUBMIT,TITLE:Dune,AUTHOR:Herbert,LOCATION:Shelf3".toList =
        some (0 + 1, (decipherBody [emma]
          "METHOD:SUBMIT,TITLE:Dune,AUTHOR:Herbert,LOCATION:Shelf3".toList).toOutcome)) :=
  ⟨by decide, by decide,
   (decipherRequest_lock_discipline 0 true [emma]
      "METHOD:SUBMIT,TITLE:Dune,AUTHOR:Herbert,LOCATION:Shelf3".toList).2.2.2.1 rfl (by decide)⟩

/-! ## The client's request lines -/

set_option maxRecDepth 100000 in
/-- C27, evaluated at menu choice 5 (REMOVE) with the entered lines: a title
of 101 characters, `Herbert`, `Shelf3`.  The title is longer than 100 bytes,
yet a request is written: `fgets(bookTitle, 100, stdin)` stores only 99
characters of the line, so the length test sees 98, the title is cut to 98
characters, the rest of the title line is taken as the author and the line
entered as author is taken as the location.  Menu choice 1 (SUBMIT) on the
same lines writes no request. -/
theorem collectBookInformation_remove_long_title :
    (List.replicate 101 'x').length > 100 ∧
    collectBookInformation 5
        (typed [List.replicate 101 'x', "Herbert".toList, "Shelf3".toList]) =
      some { requests := [Client.removeBook (List.replicate 98 'x') "xx".toList
               "Herbert".toList],
             stdin := "Shelf3\n".toList } ∧
    collectBookInformation 1
        (typed [List.replicate 101 'x', "Herbert".toList, "Shelf3".toList]) =
      some { requests := [], stdin := [] } := by
  decide

theorem submitAll_distinct :
    ∀ (books : List Book) (head : Catalog), (head ++ books).Nodup →
      (∀ b ∈ books, b.title.length < 100 ∧ b.author.length < 100) →
      submitAll head books = head ++ books
  | [], head, _, _ => by simp [submitAll]
  | b :: later, head, h, hfit => by
    have hb : b ∉ head := by
      intro hmem
      have := List.nodup_append.1 h
      exact this.2.2 hmem (by simp)
    have hstored : storedBook b.title b.author b.location = b :=
      storedBook_of_short _ _ _ (hfit b (by simp)).1 (hfit b (by simp)).2
    have hsub : (submitBook head b.title b.author b.location).catalog = head ++ [b] := by
      rw [submitBook_append head b.title b.author b.location
        (fun x hx heq => hb (by
          have hx2 : x = b := heq
          exact hx2 ▸ List.mem_of_mem_dropLast hx)), hstored]
    simp only [submitAll, hsub]
    rw [submitAll_distinct later (head ++ [b]) (by simpa using h)
      (fun x hx => hfit x (List.mem_cons_of_mem _ hx))]
    simp

/-! ## The behaviour of submitBook, removeBook and the GET operations -/

/-- C31: when the first record equal to the submitted triple stands at index
`i` and is not the last record, `submitBook` sends DUPLICATE and SUBMITTED
and leaves the first `i + 1` old records followed by the new record; the
records that stood after index `i` are no longer in the catalog, which is
therefore no longer than before, and shorter when more than one record stood
after index `i`.  The new record holds the submitted triple when the title
and the author are shorter than 100 bytes. -/
theorem submitBook_duplicate_truncates (pre post : List Book)
    (title author location : CStr)
    (hfirst : ∀ b ∈ pre, ¬ (b.title = title ∧ b.author = author ∧ b.location = location))
    (hnotlast : post ≠ []) :
    (submitBook (pre ++ { title := title, author := author, location := location } :: post)
        title author location).catalog =
      (pre ++ { title := title, author := author, location := location } :: post).take
          (pre.length + 1)
        ++ [storedBook title author location] ∧
    (submitBook (pre ++ { title := title, author := author, location := location } :: post)
        title author location).catalog =
      pre ++ [{ title := title, author := author, location := location },
              storedBook title author location] ∧
    (title.length < 100 → author.length < 100 →
      (submitBook (pre ++ { title := title, author := author, location := location } :: post)
          title author location).catalog =
        pre ++ [{ title := title, author := author, location := location },
                { title := title, author := author, location := location }]) ∧
    (submitBook (pre ++ { title := title, author := author, location := location } :: post)
        title author location).responses =
      [duplicateResponse, submittedResponse title author location] ∧
    (submitBook (pre ++ { title := title, author := author, location := location } :: post)
        title author location).catalog.length ≤
      (pre ++ { title := title, author := author, location := location } :: post).length ∧
    (1 < post.length →
      (submitBook (pre ++ { title := title, author := author, location := location } :: post)
          title author location).catalog.length <
        (pre ++ { title := title, author := author, location := location } :: post).length) := by
  have hpre : ∀ b ∈ pre, b ≠ { title := title, author := author, location := location } :=
    fun b hb heq => hfirst b hb ((Book.eq_mk_iff b title author location).1 heq)
  have hpos : 0 < post.length := List.length_pos.2 hnotlast
  rw [submitBook_truncate pre post title author location hnotlast hpre]
  refine ⟨?_, rfl, ?_, rfl, ?_, ?_⟩
  · simp [List.take_append_eq_append_take]
  · intro ht ha
    rw [storedBook_of_short title author location ht ha]
  · simp; omega
  · intro h; simp; omega

/-- C31 at the catalog `[emma, dune, ulysses, emma]` and the Dune triple. -/
theorem submitBook_duplicate_truncates_witness :
    (∀ b ∈ [emma],
      ¬ (b.title = dune.title ∧ b.author = dune.author ∧ b.location = dune.location)) ∧
    [ulysses, emma] ≠ [] ∧
    (submitBook ([emma] ++ dune :: [ulysses, emma])
        dune.title dune.author dune.location).catalog = [emma] ++ [dune, dune] :=
  ⟨by decide, by decide,
   (submitBook_duplicate_truncates [emma] [ulysses, emma] dune.title dune.author dune.location
      (by decide) (by decide)).2.2.1 (by decide) (by decide)⟩

set_option maxRecDepth 100000 in
/-- C32 as stated fails on the catalog `[dune, emma]` and the triple whose
title is 100 times `y`, with the author Austen and the location Shelf1: the
catalog is not empty and SUBMITTED is sent last, but the last record does not
hold the submitted title.  The `strcpy` into the array `title[100]` of the
node leaves no room for the NUL, so the title of the record reads on into the
array `author` and is the submitted title followed by the author. -/
theorem submitBook_last_record_differs :
    (List.replicate 100 'y').length = 100 ∧
    (submitBook [dune, emma] (List.replicate 100 'y') "Austen".toList
        "Shelf1".toList).catalog.getLast? =
      some { title := List.replicate 100 'y' ++ "Austen".toList, author := "Austen".toList,
             location := "Shelf1".toList } ∧
    (submitBook [dune, emma] (List.replicate 100 'y') "Austen".toList
        "Shelf1".toList).catalog.getLast? ≠
      some { title := List.replicate 100 'y', author := "Austen".toList,
             location := "Shelf1".toList } ∧
    (submitBook [dune, emma] (List.replicate 100 'y') "Austen".toList
        "Shelf1".toList).responses.getLast? =
      some (submittedResponse (List.replicate 100 'y') "Austen".toList "Shelf1".toList) := by
  decide

/-- C32 as amended: for every catalog and every triple whose title, author
and location are each shorter than 100 bytes, after the call of `submitBook`
the catalog is not empty, its last record holds the submitted title, author
and location, the last response sent is the SUBMITTED response for them, and
no write left the arrays of the new node. -/
theorem submitBook_ends_with_submission (head : Catalog) (title author location : CStr)
    (htitle : title.length < 100) (hauthor : author.length < 100)
    (hlocation : location.length < 100) :
    (submitBook head title author location).catalog ≠ [] ∧
    (submitBook head title author location).catalog.getLast? =
      some { title := title, author := author, location := location } ∧
    (submitBook head title author location).responses.getLast? =
      some (submittedResponse title author location) ∧
    isSubmitted (submittedResponse title author location) = true ∧
    (submitBook head title author location).fault = none := by
  obtain ⟨kept, hk⟩ := submitBook_catalog_last head title author location
  obtain ⟨before, hb⟩ := submitBook_responses_last head title author location
  rw [hk, hb, submitBook_fault, storedBook_of_short title author location htitle hauthor]
  exact ⟨by simp, by simp, by simp, isSubmitted_submitted title author location,
    nodeOverrun_of_short title author location htitle hauthor hlocation⟩

/-- C32 as amended, at the catalog `[dune, emma]` and the Ulysses triple. -/
theorem submitBook_ends_with_submission_witness :
    ulysses.title.length < 100 ∧ ulysses.author.length < 100 ∧
    ulysses.location.length < 100 ∧
    (submitBook [dune, emma] ulysses.title ulysses.author ulysses.location).catalog.getLast? =
      some ulysses :=
  ⟨by decide, by decide, by decide,
   (submitBook_ends_with_submission [dune, emma] ulysses.title ulysses.author ulysses.location
      (by decide) (by decide) (by decide)).2.1⟩

/-- C33: when the first record equal to the triple is the only record of the
catalog, or has records before it, `removeBook` leaves the catalog without
exactly that record, every other record (later records with the same triple
included) in its place, sends exactly one response, the REMOVED response for
the triple, and runs into no memory error. -/
theorem removeBook_not_head_of_many (pre post : List Book) (title author location : CStr)
    (hfirst : ∀ b ∈ pre, ¬ (b.title = title ∧ b.author = author ∧ b.location = location))
    (hposition : pre ≠ [] ∨ post = []) :
    (removeBook (pre ++ { title := title, author := author, location := location } :: post)
        title author location).catalog = pre ++ post ∧
    (removeBook (pre ++ { title := title, author := author, location := location } :: post)
        title author location).responses = [removedResponse title author location] ∧
    (removeBook (pre ++ { title := title, author := author, location := location } :: post)
        title author location).fault = none ∧
    isRemoved (removedResponse title author location) = true := by
  have hpre : ∀ b ∈ pre, b ≠ { title := title, author := author, location := location } :=
    fun b hb heq => hfirst b hb ((Book.eq_mk_iff b title author location).1 heq)
  obtain ⟨hc, hr, hf⟩ := removeBook_first_match pre post title author location hpre hposition
  exact ⟨hc, hr, hf, isRemoved_removed title author location⟩

/-- C33 at the catalog `[emma, dune, ulysses, dune]` and the Dune triple. -/
theorem removeBook_not_head_of_many_witness :
    (∀ b ∈ [emma],
      ¬ (b.title = dune.title ∧ b.author = dune.author ∧ b.location = dune.location)) ∧
    ([emma] ≠ [] ∨ [ulysses, dune] = []) ∧
    (removeBook ([emma] ++ dune :: [ulysses, dune])
        dune.title dune.author dune.location).catalog = [emma] ++ [ulysses, dune] :=
  ⟨by decide, Or.inl (by decide),
   (removeBook_not_head_of_many [emma] [ulysses, dune] dune.title dune.author dune.location
      (by decide) (Or.inl (by decide))).1⟩

theorem parseRequest_shorter (buffer : CStr) (hne : buffer ≠ []) :
    (parseRequest buffer).requestMessage.length < buffer.length := by
  have hpos : 0 < buffer.length := List.length_pos.2 hne
  rw [parseRequest_of_ne_nil buffer hne]
  simp only [List.length_drop]
  omega

theorem parseRepeatedly_exhausts :
    ∀ (n : Nat) (buffer : CStr), buffer.length ≤ n → (parseRepeatedly n buffer).2 = []
  | 0, buffer, h => by
    have : buffer = [] := List.length_eq_zero.1 (Nat.le_zero.1 h)
    subst this
    rfl
  | n + 1, buffer, h => by
    simp only [parseRepeatedly]
    by_cases hne : buffer = []
    · subst hne
      rw [parseRequest_nil]
      exact parseRepeatedly_exhausts n [] (Nat.zero_le n)
    · have hlt := parseRequest_shorter buffer hne
      exact parseRepeatedly_exhausts n _ (by omega)

/-- C35: on a non-empty buffer `parseRequest` leaves a buffer that is
strictly shorter than the input and is its end part; and as many successive
calls as the buffer has characters leave the empty buffer, whatever the
buffer is. -/
theorem parseRequest_consumes (buffer : CStr) (hne : buffer ≠ []) :
    (parseRequest buffer).requestMessage.length < buffer.length ∧
    (∃ consumed : CStr, buffer = consumed ++ (parseRequest buffer).requestMessage) ∧
    (∀ other : CStr, (parseRepeatedly other.length other).2 = []) := by
  refine ⟨parseRequest_shorter buffer hne, ?_, fun other =>
    parseRepeatedly_exhausts other.length other (Nat.le_refl _)⟩
  rw [parseRequest_of_ne_nil buffer hne]
  exact ⟨buffer.take _, (List.take_append_drop _ buffer).symm⟩

/-- C35 at the buffer `TITLE:Dune,AUTHOR:Herbert`. -/
theorem parseRequest_consumes_witness :
    "TITLE:Dune,AUTHOR:Herbert".toList ≠ [] ∧
    (parseRequest "TITLE:Dune,AUTHOR:Herbert".toList).requestMessage.length
      < "TITLE:Dune,AUTHOR:Herbert".toList.length ∧
    (parseRequest "TITLE:Dune,AUTHOR:Herbert".toList).requestMessage = "AUTHOR:Herbert".toList :=
  ⟨by decide,
   (parseRequest_consumes "TITLE:Dune,AUTHOR:Herbert".toList (by decide)).1,
   by decide⟩

/-- C36: for a key without `:` and a value without `,`, `parseRequest` on
the key, a `:`, the value, a `,` and any rest returns the key as KEY and the
value as VALUE, with every `:` the value holds, and leaves the rest in the
buffer. -/
theorem parseRequest_value_keeps_colons (key value rest : CStr)
    (hkey : ':' ∉ key) (hvalue : ',' ∉ value) :
    parseRequest (key ++ ":".toList ++ value ++ ",".toList ++ rest) =
      { requestMessage := rest, method := key, value := value } := by
  have h := parseRequest_pair_more key value rest hkey hvalue
  have he : key ++ ":".toList ++ value ++ ",".toList ++ rest
      = key ++ ':' :: value ++ ',' :: rest := by simp
  rw [he]
  exact h

/-- C36 at the key `LOCATION`, the value `Aisle:3`, which holds a `:`, and
the rest `AUTHOR:Herbert`. -/
theorem parseRequest_value_keeps_colons_witness :
    ':' ∉ "LOCATION".toList ∧ ',' ∉ "Aisle:3".toList ∧ ':' ∈ "Aisle:3".toList ∧
    parseRequest ("LOCATION".toList ++ ":".toList ++ "Aisle:3".toList ++ ",".toList
        ++ "AUTHOR:Herbert".toList) =
      { requestMessage := "AUTHOR:Herbert".toList, method := "LOCATION".toList,
        value := "Aisle:3".toList } :=
  ⟨by decide, by decide, by decide,
   parseRequest_value_keeps_colons "LOCATION".toList "Aisle:3".toList "AUTHOR:Herbert".toList
     (by decide) (by decide)⟩

/-- C37: on a non-empty buffer without `:`, `parseRequest` returns the whole
buffer as KEY and the empty string as VALUE and leaves the buffer empty,
whether or not the buffer holds a `,`. -/
theorem parseRequest_without_colon (buffer : CStr) (hne : buffer ≠ [])
    (hcolon : ':' ∉ buffer) :
    parseRequest buffer = { requestMessage := [], method := buffer, value := [] } := by
  have hm : countUntil ':' buffer = buffer.length := countUntil_of_not_mem ':' buffer hcolon
  have h0 : ¬ strlen buffer = 0 := by simpa [strlen] using hne
  have hd : buffer.drop (buffer.length + 1) = [] := List.drop_eq_nil_of_le (by omega)
  have hlen : ¬ ((strlen buffer : Int) - ((buffer.length + 0 + 2 : Nat) : Int) > 0) := by
    simp only [strlen]; push_cast; omega
  simp only [parseRequest, if_neg h0, hm, hd, countUntil, List.take_nil, List.length_nil]
  rw [if_neg hlen]
  simp

/-- C37 at the buffer `Dune,Herbert`, which holds a `,`. -/
theorem parseRequest_without_colon_witness :
    "Dune,Herbert".toList ≠ [] ∧ ':' ∉ "Dune,Herbert".toList ∧ ',' ∈ "Dune,Herbert".toList ∧
    parseRequest "Dune,Herbert".toList =
      { requestMessage := [], method := "Dune,Herbert".toList, value := [] } :=
  ⟨by decide, by decide, by decide,
   parseRequest_without_colon "Dune,Herbert".toList (by decide) (by decide)⟩

/-! ## The semaphore after setup, and the tokenizer of the variant -/

/-- C38, evaluated at the first request of a server that has just finished
the setup of `main`: the semaphore was never given a count by `sem_init`, so
its count is the 0 of the zero-filled object, not 1; the handler that
receives `METHOD:GET,AUTHOR:Herbert` stays blocked in `sem_wait` and no
response is written. -/
theorem first_request_blocks :
    mainSetup loadedMutex = 0 ∧
    mainSetup loadedMutex ≠ 1 ∧
    decipherRequest (mainSetup loadedMutex) [] "METHOD:GET,AUTHOR:Herbert".toList = none ∧
    launchClientLoopTurn (mainSetup loadedMutex) []
        (ReadResult.received "METHOD:GET,AUTHOR:Herbert\n".toList) =
      { mutex := 0, bookCatalog := [], responses := [], status := LoopStatus.blocked } := by
  decide

theorem Embedded.countLoop_eq (requestMessage : CStr) (delimiter : Char) :
    ∀ (steps i : Nat), steps = requestMessage.length - i →
      Embedded.countLoop requestMessage delimiter steps i
        = countUntil delimiter (requestMessage.drop i)
  | 0, i, h => by
    have hle : requestMessage.length ≤ i := by omega
    rw [List.drop_eq_nil_of_le hle]
    rfl
  | steps + 1, i, h => by
    have hlt : i < requestMessage.length := by omega
    have hd : requestMessage.drop i = requestMessage[i] :: requestMessage.drop (i + 1) :=
      List.drop_eq_getElem_cons hlt
    have hg : requestMessage.getD i (Char.ofNat 0) = requestMessage[i] := by
      simp [List.getD, List.getElem?_eq_getElem hlt]
    rw [hd, Embedded.countLoop, countUntil, hg,
      Embedded.countLoop_eq requestMessage delimiter steps (i + 1) (by omega)]

/-- C39: for every buffer, the `parseRequest` of the server variant kept in
`src/Client.c` returns the same KEY, the same VALUE and the same remaining
buffer as the `parseRequest` of `src/Server.c`. -/
theorem parseRequest_variants_agree (buffer : CStr) :
    Embedded.parseRequest buffer = parseRequest buffer ∧
    (Embedded.parseRequest buffer).method = (parseRequest buffer).method ∧
    (Embedded.parseRequest buffer).value = (parseRequest buffer).value ∧
    (Embedded.parseRequest buffer).requestMessage = (parseRequest buffer).requestMessage := by
  have h : Embedded.parseRequest buffer = parseRequest buffer := by
    have h1 : Embedded.countLoop buffer ':' (strlen buffer) 0 = countUntil ':' buffer := by
      have := Embedded.countLoop_eq buffer ':' (strlen buffer) 0 (by simp [strlen])
      simpa using this
    have h2 : ∀ m : Nat, Embedded.countLoop buffer ',' (strlen buffer - (m + 1)) (m + 1)
        = countUntil ',' (buffer.drop (m + 1)) :=
      fun m => Embedded.countLoop_eq buffer ',' _ (m + 1) (by simp [strlen])
    simp only [Embedded.parseRequest, parseRequest, h1, h2]
  exact ⟨h, by rw [h], by rw [h], by rw [h]⟩

end Server
